import Mathlib

/-!
# CodeExecutor

A shallow embedding of `src/CodeExecutor.cpp`: the UTF-8 repair chain
(`is_valid_utf8`, `convert_ansi_to_utf8`, `sanitize_output_for_utf8`), the embedded
Python session (`PythonExecutor::execute` and the driver script it runs) and the two
builds of `execute_shell_code` (POSIX and Windows).

Conventions of the embedding.

* A `std::string` is a list of bytes (`Str`); string constants of the source are written
  with `lit`.
* The value modelled for a call is the JSON object whose `dump()` is returned
  (`ExecutionResult`), or the bare message on the path that returns no JSON.  `dump()`
  itself is modelled where it can refuse the object (`dump_accepts`).
* What the operating system, the child process and the Python runtime do is not in
  the source: it enters as a parameter (`Python`, `PosixWorld`, `WinWorld`), and every
  theorem quantifies over it.  Allocation failures are outside the model.
* Where the source leaves the behaviour of the program undefined, the model stops and
  says so (`Outcome.double_pclose`, `CallOutcome.error_pending`).
-/

namespace CodeExecutor

set_option maxRecDepth 4000

/-! ## Bytes and strings -/

/-- One `char` of a `std::string`, read as `unsigned char`. -/
abbrev Byte := Fin 256

/-- A `std::string`, as the sequence of its bytes. -/
abbrev Str := List Byte

/-- An ASCII string constant of the source, as bytes. -/
def lit (s : String) : Str := s.toList.map (fun c => Fin.ofNat c.toNat)

/-- The C string a `std::string` is read as through `c_str()` or `char*`: the bytes before
the first NUL. -/
def c_str (s : Str) : Str := s.takeWhile (fun c => c ≠ 0)

/-- The function `std::to_string` on a signed integer. -/
def to_string (n : Int) : Str := lit (toString n)

/-! ## Encoding repair (Windows build) -/

/-- The `bytes_to_read` chosen from a lead byte in `is_valid_utf8`; `0` stands for the
branch that returns `false`. -/
def bytes_to_read (c : Byte) : Nat :=
  if c.val < 0x80 then 1
  else if c.val >>> 5 = 0x06 then 2
  else if c.val >>> 4 = 0x0E then 3
  else if c.val >>> 3 = 0x1E then 4
  else 0

/-- The outer loop of `is_valid_utf8`, on the bytes from index `i` on.  Every round
consumes at least one byte, so the first argument only has to be at least the length
of the remaining input. -/
def is_valid_utf8_loop : Nat → Str → Bool
  | _, [] => true
  | 0, _ :: _ => false
  | fuel + 1, c :: rest =>
    if bytes_to_read c = 0 then false
    else if (c :: rest).length < bytes_to_read c then false
    else if (rest.take (bytes_to_read c - 1)).all (fun next_byte => next_byte.val >>> 6 = 0x02) then
      is_valid_utf8_loop fuel (rest.drop (bytes_to_read c - 1))
    else false

/-- The function `is_valid_utf8`. -/
def is_valid_utf8 (str : Str) : Bool := is_valid_utf8_loop str.length str

/-- The Windows code-page API used by the two converters.  `none` is a size `<= 0`. -/
structure WinNls where
  /-- The call `MultiByteToWideChar(CP_ACP, 0, s, -1, ...)`. -/
  acp_to_wide : Str → Option (List Nat)
  /-- The call `MultiByteToWideChar(CP_UTF8, 0, s, -1, ...)`. -/
  utf8_to_wide : Str → Option (List Nat)
  /-- The call `WideCharToMultiByte(CP_UTF8, 0, w, -1, ...)`. -/
  wide_to_utf8 : List Nat → Option Str
  /-- The call `WideCharToMultiByte(CP_ACP, 0, w, -1, ...)`. -/
  wide_to_acp : List Nat → Option Str

/-- The function `convert_ansi_to_utf8`. -/
def convert_ansi_to_utf8 (nls : WinNls) (ansi_str : Str) : Str :=
  if ansi_str = [] then []
  else
    match nls.acp_to_wide (c_str ansi_str) with
    | none => ansi_str
    | some wide_str =>
      match nls.wide_to_utf8 (wide_str.takeWhile (fun u => u ≠ 0)) with
      | none => ansi_str
      | some utf8_str => utf8_str

/-- The function `utf8_to_ansi`. -/
def utf8_to_ansi (nls : WinNls) (utf8_str : Str) : Str :=
  if utf8_str = [] then []
  else
    match nls.utf8_to_wide (c_str utf8_str) with
    | none => utf8_str
    | some wide_str =>
      match nls.wide_to_acp (wide_str.takeWhile (fun u => u ≠ 0)) with
      | none => utf8_str
      | some ansi_str => ansi_str

/-- The function `sanitize_output_for_utf8`. -/
def sanitize_output_for_utf8 (nls : WinNls) (output : Str) : Str :=
  if output = [] then output
  else if is_valid_utf8 output then output
  else
    let converted := convert_ansi_to_utf8 nls output
    if is_valid_utf8 converted then converted
    else output.map (fun c => if c.val < 0x80 then c else 63)

/-! ## Result contract -/

/-- The two values of the `status` field. -/
inductive Status
  | success
  | error
  deriving DecidableEq, Repr

/-- The JSON object a call builds: `status` and `output`. -/
structure ExecutionResult where
  status : Status
  output : Str
  deriving DecidableEq, Repr

/-- The separator put between stdout and stderr. -/
def stderr_separator : Str := lit "\n--- STDERR ---\n"

/-- Step 7 of `PythonExecutor::execute`: the result built from the two texts read back. -/
def format_output (stdout_str stderr_str : Str) : ExecutionResult :=
  if stderr_str ≠ [] then
    let combined_output := stdout_str
    let combined_output :=
      if stdout_str ≠ [] ∧ stderr_str ≠ [] then combined_output ++ stderr_separator
      else combined_output
    ⟨Status.error, combined_output ++ stderr_str⟩
  else
    ⟨Status.success, if stdout_str = [] then lit "[No output]" else stdout_str⟩

/-! ## The JSON serializer (`nlohmann::json::dump`) -/

/-- A byte of the form `10xxxxxx`, that is `0x80-0xBF`. -/
def is_continuation (b : Byte) : Bool := decide (0x80 ≤ b.val ∧ b.val ≤ 0xBF)

/-- The length of the well-formed UTF-8 sequence at the front of a text (Unicode, table
3-7: no overlong form, no surrogate, nothing above `U+10FFFF`); `0` when there is
none. -/
def well_formed_length (s : Str) : Nat :=
  match s with
  | [] => 0
  | c :: rest =>
    if c.val < 0x80 then 1
    else if 0xC2 ≤ c.val ∧ c.val ≤ 0xDF then
      match rest with
      | b1 :: _ => if is_continuation b1 then 2 else 0
      | _ => 0
    else if 0xE0 ≤ c.val ∧ c.val ≤ 0xEF then
      match rest with
      | b1 :: b2 :: _ =>
        if is_continuation b1 ∧ is_continuation b2 ∧ (c.val = 0xE0 → 0xA0 ≤ b1.val)
            ∧ (c.val = 0xED → b1.val ≤ 0x9F) then 3 else 0
      | _ => 0
    else if 0xF0 ≤ c.val ∧ c.val ≤ 0xF4 then
      match rest with
      | b1 :: b2 :: b3 :: _ =>
        if is_continuation b1 ∧ is_continuation b2 ∧ is_continuation b3
            ∧ (c.val = 0xF0 → 0x90 ≤ b1.val) ∧ (c.val = 0xF4 → b1.val ≤ 0x8F) then 4 else 0
      | _ => 0
    else 0

/-- The check for well-formed UTF-8, sequence by sequence.  Every round consumes at least
one byte, so the first argument only has to be at least the length of the text. -/
def well_formed_loop : Nat → Str → Bool
  | _, [] => true
  | 0, _ :: _ => false
  | fuel + 1, c :: rest =>
    if well_formed_length (c :: rest) = 0 then false
    else well_formed_loop fuel ((c :: rest).drop (well_formed_length (c :: rest)))

/-- Well-formed UTF-8 in the sense of the Unicode standard. -/
def is_well_formed_utf8 (s : Str) : Bool := well_formed_loop s.length s

/-- Whether `result_json.dump()` serializes a result with this output.  The call uses
the default (strict) error handler of `nlohmann::json`, which serializes a string that
is well-formed UTF-8 and throws `type_error.316` on any other.  The library is not part
of the repository; this follows its documentation. -/
def dump_accepts (output : Str) : Bool := is_well_formed_utf8 output

/-- The exception `dump()` throws on a string that is not well-formed UTF-8; the message
goes on with the position and the value of the offending byte. -/
def type_error_316 : String := "[json.exception.type_error.316] invalid UTF-8 byte"

/-! ## The embedded Python session -/

/-- A statement node of a parsed module: whether it is an `ast.Expr`, and its source. -/
structure Stmt where
  is_Expr : Bool
  source : Str
  deriving DecidableEq, Repr

/-- Python objects, as far as host and driver tell them apart.  A `str` is kept as its
UTF-8 bytes, what `PyUnicode_AsUTF8` hands out; `lone_surrogates` is a `str` that has no
UTF-8 form: `PyUnicode_Check` accepts it and `PyUnicode_AsUTF8` fails on it. -/
inductive PyObj
  | None
  | int (value : Int)
  | unicode (utf8 : Str)
  | lone_surrogates
  | tree (body : List Stmt)
  | code (body : List Stmt)
  | object (description : String)
  deriving DecidableEq, Repr

/-- A raised exception: whether `except Exception` catches it (it derives from
`Exception` and not only from `BaseException`), its type name and its message. -/
structure PyExc where
  is_Exception : Bool
  type_name : Str
  message : Str
  deriving DecidableEq, Repr

/-- A namespace: `main_dict`, the globals of `__main__`. -/
abbrev Dict := List (String × PyObj)

/-- The call `PyDict_GetItemString`. -/
def PyDict_GetItemString (d : Dict) (key : String) : Option PyObj :=
  (d.find? (fun kv => kv.1 = key)).map (fun kv => kv.2)

/-- The call `PyDict_SetItemString`, also an assignment to a global name. -/
def PyDict_SetItemString (d : Dict) (key : String) (v : PyObj) : Dict :=
  if d.any (fun kv => kv.1 = key) then d.map (fun kv => if kv.1 = key then (key, v) else kv)
  else d ++ [(key, v)]

/-- The call `PyDict_DelItemString`; a missing key leaves the dictionary as it is (and
sets `KeyError`, see `PythonExecutor.call`). -/
def PyDict_DelItemString (d : Dict) (key : String) : Dict :=
  d.filter (fun kv => kv.1 ≠ key)

/-- The exception `PyDict_DelItemString` sets for a key that is not there. -/
def KeyError (key : String) : PyExc :=
  ⟨true, lit "KeyError", lit "'" ++ lit key ++ lit "'"⟩

/-- The interpreter state the driver works on: the shared globals, the content of the
two buffers the driver creates at lines 266-267 (the objects, whatever the names
`captured_stdout` and `captured_stderr` are bound to later), and everything else that
running code can read and change (the heap behind the bound objects, the module table,
`sys.stdout`, the file system), as a token that only the runtime interprets. -/
structure PyState where
  globals : Dict
  captured_stdout : Str
  captured_stderr : Str
  rest : Nat
  deriving DecidableEq, Repr

/-- The Python runtime as it is when a call is made, as far as the host and the driver
use it.  Every statement of the driver that looks a name up (`isinstance`, `compile`,
`exec`, `eval`, `repr`, `print`, `Exception`, `captured_stdout`, ...) is a function of
the interpreter state it runs in: it stands for what the statement does there, whatever
the names are bound to by then, in `main_dict` or in the built-ins.  Calls that run code
return the state they leave behind together with the exception raised, if any. -/
structure Python where
  /-- Whether `PyUnicode_FromString` accepts the bytes (they decode as UTF-8). -/
  decodes : Str → Bool
  /-- Lines 259-269, the imports, the creation of the two buffers and the entry into the
  `with` block: the state in which the `try` is entered (`driver_entry` when the lines
  run as written), or the namespace left behind and the exception raised (an earlier
  snippet may have rebound `__builtins__`, or emptied `sys.modules`). -/
  prologue : Dict → Except (Dict × PyExc) PyState
  /-- The call `ast.parse(user_code, mode='exec')`: the module body. -/
  ast_parse : PyObj → PyState → PyState × Except PyExc (List Stmt)
  /-- The test `isinstance(tree.body[-1], ast.Expr)`. -/
  isinstance_Expr : Stmt → PyState → PyState × Except PyExc Bool
  /-- The call `compile(tree, '<string>', 'exec')`, for the statements left in `tree`:
  the object it returns. -/
  compile_exec : List Stmt → PyState → PyState × Except PyExc PyObj
  /-- The call `compile(ast.Expression(last_expr_node.value), '<string>', 'eval')`, for
  the node that was popped: the object it returns. -/
  compile_eval : Stmt → PyState → PyState × Except PyExc PyObj
  /-- The call `exec(exec_code_obj, globals())`. -/
  exec_code : PyObj → PyState → PyState × Option PyExc
  /-- The call `eval(eval_code_obj, globals())`. -/
  eval_code : PyObj → PyState → PyState × Except PyExc PyObj
  /-- The call `repr(result)`. -/
  repr : PyObj → PyState → PyState × Except PyExc Str
  /-- The call `print(...)` on the text `repr` returned. -/
  print : Str → PyState → PyState × Option PyExc
  /-- The call `exec(user_code, globals())`. -/
  exec_object : PyObj → PyState → PyState × Option PyExc
  /-- Whether the clause `except Exception:` catches the exception; evaluating the
  clause can raise. -/
  except_Exception : PyExc → PyState → Except PyExc Bool
  /-- The two statements `import traceback` and `traceback.print_exc()`, for the
  exception being handled. -/
  print_exc : PyExc → PyState → PyState × Option PyExc
  /-- The two closing statements of the driver: `globals()['stdout_result'] =
  captured_stdout.getvalue()` (for `false`) and the same for stderr (for `true`). -/
  store_result : Bool → PyState → PyState × Option PyExc
  /-- The joined `traceback.format_exception(...)` of the host, when it is available. -/
  format_exception : PyExc → Option Str
  /-- The `repr` of the exception value, used by the host as a fallback. -/
  repr_exc : PyExc → Str

/-- An assignment to a global name by the driver. -/
def PyState.bind (st : PyState) (name : String) (v : PyObj) : PyState :=
  { st with globals := PyDict_SetItemString st.globals name v }

/-- Reading the global `user_code`; an unbound name raises `NameError`. -/
def load_user_code (st : PyState) : Except PyExc PyObj :=
  match PyDict_GetItemString st.globals "user_code" with
  | some v => Except.ok v
  | none => Except.error ⟨true, lit "NameError", lit "name 'user_code' is not defined"⟩

/-- The statement `exec(user_code, globals())` of the driver. -/
def exec_user_code (py : Python) (st : PyState) : PyState × Option PyExc :=
  match load_user_code st with
  | Except.error e => (st, some e)
  | Except.ok src => py.exec_object src st

/-- The statements before the final expression: `if tree.body:` compile and run them. -/
def run_preceding (py : Python) (pre : List Stmt) (st : PyState) : PyState × Option PyExc :=
  if pre ≠ [] then
    match py.compile_exec pre st with
    | (st, Except.error e) => (st, some e)
    | (st, Except.ok exec_code_obj) =>
      py.exec_code exec_code_obj (st.bind "exec_code_obj" exec_code_obj)
  else (st, none)

/-- The branch of the driver taken when the module body ends in an expression statement:
run what precedes it, evaluate it, print the `repr` of a value that is not `None`. -/
def run_with_last_expr (py : Python) (body : List Stmt) (last : Stmt) (st : PyState) :
    PyState × Option PyExc :=
  let st := st.bind "last_expr_node" (PyObj.object "ast.Expr")
  match run_preceding py body.dropLast st with
  | (st, some e) => (st, some e)
  | (st, none) =>
    match py.compile_eval last st with
    | (st, Except.error e) => (st, some e)
    | (st, Except.ok eval_code_obj) =>
      match py.eval_code eval_code_obj (st.bind "eval_code_obj" eval_code_obj) with
      | (st, Except.error e) => (st, some e)
      | (st, Except.ok result) =>
        let st := st.bind "result" result
        if result ≠ PyObj.None then
          match py.repr result st with
          | (st, Except.error e) => (st, some e)
          | (st, Except.ok r) => py.print r st
        else (st, none)

/-- The body of the outer `try:` of the driver. -/
def first_attempt (py : Python) (st : PyState) : PyState × Option PyExc :=
  match load_user_code st with
  | Except.error e => (st, some e)
  | Except.ok src =>
    match py.ast_parse src st with
    | (st, Except.error e) => (st, some e)
    | (st, Except.ok body) =>
      let st := st.bind "tree" (PyObj.tree body)
      match body.getLast? with
      | some last =>
        match py.isinstance_Expr last st with
        | (st, Except.error e) => (st, some e)
        | (st, Except.ok true) =>
          run_with_last_expr py body last (st.bind "tree" (PyObj.tree body.dropLast))
        | (st, Except.ok false) => exec_user_code py st
      | none => exec_user_code py st

/-- The `try: ... except Exception: try: exec(...) except Exception: print_exc()` of the
driver.  An exception that a clause does not catch, or that is raised while a clause is
evaluated or in the handler, leaves the block. -/
def guarded (py : Python) (st : PyState) : PyState × Option PyExc :=
  match first_attempt py st with
  | (st, none) => (st, none)
  | (st, some e) =>
    match py.except_Exception e st with
    | Except.error raised => (st, some raised)
    | Except.ok false => (st, some e)
    | Except.ok true =>
      match exec_user_code py st with
      | (st, none) => (st, none)
      | (st, some e2) =>
        match py.except_Exception e2 st with
        | Except.error raised => (st, some raised)
        | Except.ok false => (st, some e2)
        | Except.ok true => py.print_exc e2 st

/-- The driver up to the `try`, run as written: the imports are bound and the two
capture buffers are created, empty. -/
def driver_entry (main_dict : Dict) : PyState :=
  let d := PyDict_SetItemString main_dict "sys" (PyObj.object "module sys")
  let d := PyDict_SetItemString d "io" (PyObj.object "module io")
  let d := PyDict_SetItemString d "ast" (PyObj.object "module ast")
  let d := PyDict_SetItemString d "redirect_stdout" (PyObj.object "class redirect_stdout")
  let d := PyDict_SetItemString d "redirect_stderr" (PyObj.object "class redirect_stderr")
  let d := PyDict_SetItemString d "captured_stdout" (PyObj.object "io.StringIO")
  let d := PyDict_SetItemString d "captured_stderr" (PyObj.object "io.StringIO")
  ⟨d, [], [], 0⟩

/-- The driver `python_script`, run by `PyRun_String` against `main_dict`: the new
namespace, and the exception that left the script (then `PyRun_String` returns
`NULL`).  The two closing statements run outside the `try`. -/
def python_script (py : Python) (main_dict : Dict) : Dict × Option PyExc :=
  match py.prologue main_dict with
  | Except.error (d, e) => (d, some e)
  | Except.ok st =>
    match guarded py st with
    | (st, some e) => (st.globals, some e)
    | (st, none) =>
      match py.store_result false st with
      | (st, some e) => (st.globals, some e)
      | (st, none) =>
        match py.store_result true st with
        | (st, some e) => (st.globals, some e)
        | (st, none) => (st.globals, none)

/-- The method `PythonExecutor::check_python_error`, for the pending error `err`. -/
def check_python_error (py : Python) (err : Option PyExc) : Str :=
  match err with
  | none => []
  | some e =>
    match py.format_exception e with
    | some error_str => c_str error_str
    | none => lit "Error during execution: " ++ c_str (py.repr_exc e)

/-- What `execute` returns: the dump of a JSON result, or a bare message. -/
inductive Returned
  | json (result : ExecutionResult)
  | text (message : Str)
  deriving DecidableEq, Repr

/-- The call `s.find_first_not_of(chars)`; `none` is `npos`. -/
def find_first_not_of (s chars : Str) : Option Nat :=
  let i := s.findIdx (fun c => !chars.contains c)
  if i < s.length then some i else none

/-- The call `s.find_last_not_of(chars)`; `none` is `npos`. -/
def find_last_not_of (s chars : Str) : Option Nat :=
  let r := s.reverse.findIdx (fun c => !chars.contains c)
  if r < s.length then some (s.length - 1 - r) else none

/-- Step 1 of `PythonExecutor::execute`: the value of `trimmed_code` for a snippet. -/
def trimmed_code (code : Str) : Str :=
  match find_first_not_of code (lit " \t\n\r") with
  | some start =>
    let rest := code.drop start
    match find_last_not_of rest (lit " \t\n\r") with
    | some e => rest.take (e + 1)
    | none => []
  | none => []

/-- Step 5 of `PythonExecutor::execute`: a captured text read back from `main_dict`. -/
def read_back (d : Dict) (key : String) : Str :=
  match PyDict_GetItemString d key with
  | some (PyObj.unicode s) => c_str s
  | _ => []

/-- The method `PythonExecutor::execute`, entered with no Python error pending (for
the error indicator across the calls of a session see `PythonExecutor.call`): the
session namespace after the call and the value returned.  On the failure path `PyDict_DelItemString` runs before
`check_python_error`: when `user_code` is no longer bound, the `KeyError` it sets
replaces the error the driver left. -/
def PythonExecutor.execute (py : Python) (main_dict : Dict) (code : Str) : Dict × Returned :=
  if trimmed_code code = [] then
    (main_dict, Returned.json ⟨Status.success, lit "[No code to execute]"⟩)
  else if py.decodes (c_str (trimmed_code code)) = false then
    (main_dict, Returned.text (lit "Error: Failed to create Python string from user code."))
  else
    let d := PyDict_SetItemString main_dict "user_code" (PyObj.unicode (c_str (trimmed_code code)))
    match python_script py d with
    | (d, some e) =>
      let pending := if (PyDict_GetItemString d "user_code").isSome then e else KeyError "user_code"
      (PyDict_DelItemString d "user_code",
        Returned.json
          ⟨Status.error, lit "Execution wrapper failed: " ++ check_python_error py (some pending)⟩)
    | (d, none) =>
      let stdout_str := read_back d "stdout_result"
      let stderr_str := read_back d "stderr_result"
      let d := PyDict_DelItemString d "user_code"
      let d := PyDict_DelItemString d "stdout_result"
      let d := PyDict_DelItemString d "stderr_result"
      (d, Returned.json (format_output stdout_str stderr_str))

/-- A session of one `PythonExecutor`: the namespace of `__main__`, and whether CPython's
error indicator is set.  The host leaves it set where a C API call fails and nothing
fetches or clears the error. -/
structure Session where
  main_dict : Dict
  error_indicator : Bool
  deriving DecidableEq, Repr

/-- How a call on a session ends: with the value `execute` returns, or, entered with
the error indicator set, in the interpreter being called with an error pending, which
the C API does not allow; what the program does from there is not defined by the
source. -/
inductive CallOutcome
  | returned (value : Returned)
  | error_pending
  deriving DecidableEq, Repr

/-- Whether step 5 fails on a captured text: `PyUnicode_AsUTF8` returns `NULL` for a
`str` with lone surrogates and sets the error indicator. -/
def read_back_fails (d : Dict) (key : String) : Bool :=
  match PyDict_GetItemString d key with
  | some PyObj.lone_surrogates => true
  | _ => false

/-- The error indicator after a call that went past the trimming.  It is set by a failed
`PyUnicode_FromString` (line 246), by a failed `PyUnicode_AsUTF8` (lines 330, 337) and by
`PyDict_DelItemString` on a key that is not there (lines 342-344); nothing clears it on
these paths.  On the failure path `check_python_error` fetches the error. -/
def indicator_after (py : Python) (main_dict : Dict) (code : Str) : Bool :=
  if py.decodes (c_str (trimmed_code code)) = false then true
  else
    match python_script py
        (PyDict_SetItemString main_dict "user_code" (PyObj.unicode (c_str (trimmed_code code))))
    with
    | (_, some _) => false
    | (d, none) =>
      read_back_fails d "stdout_result" || read_back_fails d "stderr_result"
        || (PyDict_GetItemString d "user_code").isNone
        || (PyDict_GetItemString d "stdout_result").isNone
        || (PyDict_GetItemString d "stderr_result").isNone

/-- One call of `PythonExecutor::execute` in a session.  A blank snippet returns before
any C API call; any other snippet goes on into the interpreter, with whatever error an
earlier call left pending (then the session paired with `error_pending` says nothing). -/
def PythonExecutor.call (py : Python) (s : Session) (code : Str) : Session × CallOutcome :=
  if trimmed_code code = [] then
    (s, CallOutcome.returned (PythonExecutor.execute py s.main_dict code).2)
  else if s.error_indicator = true then (s, CallOutcome.error_pending)
  else
    (⟨(PythonExecutor.execute py s.main_dict code).1, indicator_after py s.main_dict code⟩,
      CallOutcome.returned (PythonExecutor.execute py s.main_dict code).2)

/-! ## Temp files, exceptions and captured output of `execute_shell_code` -/

/-- The files present in the temp directory, by path. -/
abbrev Files := List String

/-- A file comes into existence (or is truncated). -/
def create_file (files : Files) (path : String) : Files :=
  if path ∈ files then files else path :: files

/-- The call `fs::remove(path)`. -/
def remove (files : Files) (path : String) : Files :=
  files.filter (fun p => p ≠ path)

/-- The call `fs::rename(old, new)` when it succeeds. -/
def rename (files : Files) (old new : String) : Files :=
  create_file (remove files old) new

/-- How control leaves `execute_shell_code`: with the JSON result, by an exception, or,
in the POSIX build, through a second `pclose` on the stream that line 656 has already
closed.  The `unique_ptr` of line 645 still owns the stream and closes it again when the
`try` block is left, after `dump()` has serialized the result (`some`) or while the
exception of `dump()` unwinds (`none`); the behaviour of the program is undefined from
there on. -/
inductive Outcome
  | returned (result : ExecutionResult)
  | thrown (what : String)
  | double_pclose (serialized : Option ExecutionResult)
  deriving DecidableEq, Repr

/-- The result that `dump()` serialized for the caller, when control got that far. -/
def Outcome.serialized_result : Outcome → Option ExecutionResult
  | Outcome.returned result => some result
  | Outcome.thrown _ => none
  | Outcome.double_pclose serialized => serialized

/-- The removal of trailing `'\n'` and `'\r'`: the two `pop_back` loops. -/
def strip_line_ends (s : Str) : Str :=
  s.rdropWhile (fun c => c = 10 ∨ c = 13)

/-- The snippet followed by `'\n'` when it is not empty and does not end in one. -/
def with_final_newline (code : Str) : Str :=
  if code ≠ [] ∧ code.getLast? ≠ some 10 then code ++ [10] else code

/-! ## `execute_shell_code`, POSIX build -/

/-- The status macros of `<sys/wait.h>`, applied to the value `pclose` returns. -/
structure WaitMacros where
  WIFEXITED : Int → Bool
  WEXITSTATUS : Int → Int
  WIFSIGNALED : Int → Bool
  WTERMSIG : Int → Int

/-- The encoding of a wait status on Linux: signal in the low seven bits, exit code in
the next byte. -/
def linux_wait : WaitMacros where
  WIFEXITED := fun s => s % 128 = 0
  WEXITSTATUS := fun s => (s / 256) % 256
  WIFSIGNALED := fun s => 1 ≤ s % 128 ∧ s % 128 ≤ 126
  WTERMSIG := fun s => s % 128

/-- What a launched child does: the bytes it writes to its standard output, the value
`pclose` returns, and the content of the stderr capture file if the shell created one
that can be read. -/
structure PosixChild where
  stdout : Str
  pclose : Int
  stderr_file : Option Str
  deriving DecidableEq, Repr

/-- The operating system during one POSIX invocation.  A `false` or `none` is the
failure of the call (an exception, or `NULL` from `popen`). -/
structure PosixWorld where
  wait : WaitMacros
  temp_directory_path : Option String
  getpid : Nat
  time : Nat
  ofstream_opens : Bool
  permissions_ok : Bool
  /-- The call `popen(command, "r")`, given the script written to the temp file. -/
  popen : String → Str → Option PosixChild

/-- One line of a stream, through its first `'\n'`. -/
def take_line : Str → Str
  | [] => []
  | c :: cs => if c = 10 then [c] else c :: take_line cs

/-- The call `fgets(buffer, size, pipe)`: `none` at end of file, else the bytes stored
(at most `size - 1`, ending after a line feed) and the rest of the stream. -/
def fgets (size : Nat) (stream : Str) : Option (Str × Str) :=
  if stream = [] then none
  else
    let buffer := take_line (stream.take (size - 1))
    some (buffer, stream.drop buffer.length)

/-- The loop `while (fgets(...) != nullptr) result += buffer.data()`.  Every round
consumes at least one byte, so the first argument only has to be at least the length
of the stream. -/
def read_pipe_loop : Nat → Str → Str → Str
  | 0, _, result => result
  | fuel + 1, stream, result =>
    match fgets 128 stream with
    | none => result
    | some (buffer, rest) => read_pipe_loop fuel rest (result ++ c_str buffer)

/-- The text `result` captured from the pipe. -/
def read_pipe (stream : Str) : Str := read_pipe_loop stream.length stream []

/-- The text written to the temp script in the POSIX build. -/
def posix_script (shell_name ext : String) (code : Str) : Str :=
  (if shell_name = "bash" ∨ (shell_name ≠ "powershell" ∧ ext = ".sh") then lit "#!/bin/bash\n"
    else []) ++ with_final_newline code

/-- The result built by the POSIX build from the stripped texts and the wait status. -/
def posix_result (wm : WaitMacros) (result stderr_str : Str) (exit_code : Int) : ExecutionResult :=
  if wm.WIFEXITED exit_code = true ∧ wm.WEXITSTATUS exit_code = 0 ∧ stderr_str = [] then
    ⟨Status.success, if result = [] then lit "[No output]" else result⟩
  else
    let error_output := result
    let error_output :=
      if stderr_str ≠ [] then
        (if error_output ≠ [] then error_output ++ stderr_separator else error_output) ++ stderr_str
      else error_output
    let error_output :=
      if wm.WIFEXITED exit_code = true then
        let status := wm.WEXITSTATUS exit_code
        if status ≠ 0 then
          (if error_output ≠ [] then error_output ++ lit "\n" else error_output)
            ++ lit "Process exited with status: " ++ to_string status
        else error_output
      else if wm.WIFSIGNALED exit_code = true then
        (if error_output ≠ [] then error_output ++ lit "\n" else error_output)
          ++ lit "Process terminated by signal: " ++ to_string (wm.WTERMSIG exit_code)
      else error_output
    ⟨Status.error, error_output⟩

/-- The extension chosen from the shell name in the POSIX build. -/
def posix_ext (shell_name : String) : String :=
  if shell_name = "powershell" then ".ps1" else if shell_name = "bash" then ".sh" else ".sh"

/-- The `temp_filename` of an invocation: process id and time in seconds. -/
def temp_filename (w : PosixWorld) : String :=
  "code_exec_" ++ toString w.getpid ++ "_" ++ toString w.time

/-- The path of the temp script in the POSIX build. -/
def posix_temp_file_path (w : PosixWorld) (temp_dir shell_name : String) : String :=
  temp_dir ++ "/" ++ (temp_filename w ++ posix_ext shell_name)

/-- The path of the stderr capture file in the POSIX build. -/
def posix_stderr_path (w : PosixWorld) (temp_dir : String) : String :=
  temp_dir ++ "/" ++ (temp_filename w ++ "_stderr.txt")

/-- The command line handed to `popen` in the POSIX build. -/
def posix_command (w : PosixWorld) (temp_dir shell_name : String) : String :=
  let command_start :=
    if shell_name = "powershell" then "pwsh -ExecutionPolicy Bypass -File"
    else if shell_name = "bash" then "bash" else "bash"
  let command := command_start ++ " \"" ++ posix_temp_file_path w temp_dir shell_name ++ "\""
  command ++ " 2> \"" ++ posix_stderr_path w temp_dir ++ "\""

/-- The `try` block of the POSIX build.  When `popen` fails the `unique_ptr` holds no
stream and the exception leaves normally.  When it succeeds, line 656 closes the stream
through `pipe.get()` without releasing it, so the block cannot be left, by `return` or
by an exception, without the deleter closing it a second time. -/
def posix_try (w : PosixWorld) (files : Files) (temp_dir shell_name : String) (code : Str) :
    Files × Outcome :=
  let temp_file_path := posix_temp_file_path w temp_dir shell_name
  let stderr_path := posix_stderr_path w temp_dir
  if w.ofstream_opens = false then
    (files, Outcome.thrown "Could not create temporary file for shell execution.")
  else
    let files := create_file files temp_file_path
    if w.permissions_ok = false then (files, Outcome.thrown "filesystem error: permissions")
    else
      let command := posix_command w temp_dir shell_name
      match w.popen command (posix_script shell_name (posix_ext shell_name) code) with
      | none =>
        (remove (remove files temp_file_path) stderr_path,
          Outcome.thrown ("Failed to execute command: " ++ command))
      | some child =>
        let files := if child.stderr_file.isSome then create_file files stderr_path else files
        let result := read_pipe child.stdout
        let exit_code := child.pclose
        let stderr_str := child.stderr_file.getD []
        let files := remove (remove files temp_file_path) stderr_path
        let result_json :=
          posix_result w.wait (strip_line_ends result) (strip_line_ends stderr_str) exit_code
        (files, Outcome.double_pclose
          (if dump_accepts result_json.output then some result_json else none))

/-- The function `execute_shell_code` of the POSIX build: the files left in the temp
directory and how control leaves. -/
def execute_shell_code_posix (w : PosixWorld) (files : Files) (shell_name : String) (code : Str) :
    Files × Outcome :=
  match w.temp_directory_path with
  | none => (files, Outcome.thrown "filesystem error: temp_directory_path")
  | some temp_dir =>
    let temp_file_path := posix_temp_file_path w temp_dir shell_name
    let stderr_path := posix_stderr_path w temp_dir
    match posix_try w files temp_dir shell_name code with
    | (files, Outcome.thrown what) =>
      let files := remove files temp_file_path
      let files := if stderr_path ∈ files then remove files stderr_path else files
      (files, Outcome.thrown what)
    | (files, outcome) => (files, outcome)

/-! ## `execute_shell_code`, Windows build -/

/-- What a launched child does on Windows: the chunks `ReadFile` delivers on each pipe,
in order, and the value of `GetExitCodeProcess`. -/
structure WinChild where
  stdout_reads : List Str
  stderr_reads : List Str
  exit_code : Nat
  deriving DecidableEq, Repr

/-- The operating system during one Windows invocation.  A `false` or `none` is the
failure of the call. -/
structure WinWorld where
  nls : WinNls
  temp_directory_path : Option String
  /-- The call `GetTempFileNameW(dir, L"CMD", 0, ...)`: it creates `<stem>.tmp` and
  returns its path; here the path without the extension. -/
  GetTempFileNameW : Option String
  rename_ok : Bool
  ofstream_opens : Bool
  stdout_pipe_ok : Bool
  stdout_inherit_ok : Bool
  stderr_pipe_ok : Bool
  stderr_inherit_ok : Bool
  /-- The call `CreateProcessW` on the command line, given the script written to the temp
  file; an error carries `GetLastError()`. -/
  CreateProcessW : String → Str → Except Nat WinChild

/-- A stream written in text mode on Windows: every `'\n'` becomes `"\r\n"`. -/
def text_mode (s : Str) : Str :=
  s.flatMap (fun c => if c = 10 then [13, 10] else [c])

/-- The bytes written to the temp script in the Windows build. -/
def windows_script (nls : WinNls) (shell_name : String) (code : Str) : Str :=
  if shell_name = "batch" then
    text_mode (lit "@echo off\n" ++ lit "chcp 65001 >nul 2>&1\n" ++ utf8_to_ansi nls code
      ++ (if code ≠ [] ∧ code.getLast? ≠ some 10 then [10] else []))
  else with_final_newline code

/-- The text accumulated from a pipe: every chunk is appended as a C string. -/
def read_chunks (reads : List Str) : Str :=
  (reads.map c_str).flatten

/-- The text the Windows build goes on with for a captured stream: one that is not
empty is sanitized when the shell is `batch`, and kept as it is for any other shell. -/
def windows_text (nls : WinNls) (shell_name : String) (captured : Str) : Str :=
  if captured ≠ [] then
    (if shell_name = "batch" then sanitize_output_for_utf8 nls captured else captured)
  else []

/-- The result built by the Windows build from the captured texts and the exit code. -/
def windows_result (nls : WinNls) (shell_name : String) (stdout_str stderr_str : Str)
    (exit_code : Nat) : ExecutionResult :=
  let result_str := windows_text nls shell_name stdout_str
  let stderr_str := windows_text nls shell_name stderr_str
  if exit_code ≠ 0 ∨ stderr_str ≠ [] then
    let error_output := result_str
    let error_output :=
      if stderr_str ≠ [] then
        (if error_output ≠ [] then error_output ++ stderr_separator else error_output) ++ stderr_str
      else error_output
    let error_output :=
      if exit_code ≠ 0 then
        (if error_output ≠ [] then error_output ++ lit "\n" else error_output)
          ++ lit "Process exited with code: " ++ to_string exit_code
      else error_output
    ⟨Status.error, error_output⟩
  else
    ⟨Status.success, if result_str = [] then lit "[No output]" else result_str⟩

/-- The extension chosen from the shell name in the Windows build. -/
def windows_ext (shell_name : String) : String :=
  if shell_name = "powershell" then ".ps1" else ".bat"

/-- The command line handed to `CreateProcessW`. -/
def windows_command_line (shell_name final_temp_path : String) : String :=
  if shell_name = "powershell" then
    "powershell.exe -ExecutionPolicy Bypass -OutputFormat Text -NonInteractive -File \""
      ++ final_temp_path ++ "\""
  else "cmd.exe /c \"" ++ final_temp_path ++ "\""

/-- The `try` block of the Windows build.  Its last statement is
`return result_json.dump()`: the result is returned when `dump()` accepts the output, and
the exception of `dump()` is thrown otherwise. -/
def windows_try (w : WinWorld) (files : Files) (shell_name : String) (code : Str)
    (final_temp_path : String) : Files × Outcome :=
  if w.ofstream_opens = false then
    (files, Outcome.thrown "Could not open temporary file for writing.")
  else
    let files := create_file files final_temp_path
    if w.stdout_pipe_ok = false then (files, Outcome.thrown "Stdout pipe creation failed.")
    else if w.stdout_inherit_ok = false then
      (files, Outcome.thrown "Stdout pipe inheritance setup failed.")
    else if w.stderr_pipe_ok = false then (files, Outcome.thrown "Stderr pipe creation failed.")
    else if w.stderr_inherit_ok = false then
      (files, Outcome.thrown "Stderr pipe inheritance setup failed.")
    else
      match w.CreateProcessW (windows_command_line shell_name final_temp_path)
          (windows_script w.nls shell_name code) with
      | Except.error last_error =>
        (remove files final_temp_path,
          Outcome.thrown ("CreateProcess failed. Error: " ++ toString last_error))
      | Except.ok child =>
        let stdout_str := read_chunks child.stdout_reads
        let stderr_str := read_chunks child.stderr_reads
        let files := remove files final_temp_path
        let result_json := windows_result w.nls shell_name stdout_str stderr_str child.exit_code
        if dump_accepts result_json.output then (files, Outcome.returned result_json)
        else (files, Outcome.thrown type_error_316)

/-- The function `execute_shell_code` of the Windows build: the files left in the temp
directory and how control leaves. -/
def execute_shell_code_windows (w : WinWorld) (files : Files) (shell_name : String) (code : Str) :
    Files × Outcome :=
  match w.temp_directory_path with
  | none => (files, Outcome.thrown "filesystem error: temp_directory_path")
  | some _ =>
    match w.GetTempFileNameW with
    | none => (files, Outcome.thrown "Could not create temporary file name.")
    | some stem =>
      let temp_file_path := stem ++ ".tmp"
      let files := create_file files temp_file_path
      let final_temp_path := stem ++ windows_ext shell_name
      if temp_file_path ≠ final_temp_path ∧ w.rename_ok = false then
        (files, Outcome.thrown "filesystem error: rename")
      else
        let files :=
          if temp_file_path ≠ final_temp_path then rename files temp_file_path final_temp_path
          else files
        match windows_try w files shell_name code final_temp_path with
        | (files, Outcome.thrown what) => (remove files final_temp_path, Outcome.thrown what)
        | (files, outcome) => (files, outcome)

/-! ## Names for what an invocation observes -/

/-- The child a POSIX invocation launches and reaps, when staging and launch succeed. -/
def posix_child (w : PosixWorld) (shell_name : String) (code : Str) : Option PosixChild :=
  match w.temp_directory_path with
  | none => none
  | some temp_dir =>
    if w.ofstream_opens = true ∧ w.permissions_ok = true then
      w.popen (posix_command w temp_dir shell_name)
        (posix_script shell_name (posix_ext shell_name) code)
    else none

/-- The child a Windows invocation launches and reaps, when staging and launch succeed. -/
def windows_child (w : WinWorld) (shell_name : String) (code : Str) : Option WinChild :=
  match w.temp_directory_path, w.GetTempFileNameW with
  | some _, some stem =>
    if w.rename_ok = true ∧ w.ofstream_opens = true ∧ w.stdout_pipe_ok = true
        ∧ w.stdout_inherit_ok = true ∧ w.stderr_pipe_ok = true ∧ w.stderr_inherit_ok = true then
      match w.CreateProcessW (windows_command_line shell_name (stem ++ windows_ext shell_name))
          (windows_script w.nls shell_name code) with
      | Except.ok child => some child
      | Except.error _ => none
    else none
  | _, _ => none

/-- The result object the POSIX build builds for a launched child (lines 670-700). -/
def posix_result_json (w : PosixWorld) (child : PosixChild) : ExecutionResult :=
  posix_result w.wait (strip_line_ends (read_pipe child.stdout))
    (strip_line_ends (child.stderr_file.getD [])) child.pclose

/-- The result object the Windows build builds for a launched child (lines 535-573). -/
def windows_result_json (w : WinWorld) (shell_name : String) (child : WinChild) :
    ExecutionResult :=
  windows_result w.nls shell_name (read_chunks child.stdout_reads)
    (read_chunks child.stderr_reads) child.exit_code

/-- The session namespace in which the driver is run for a snippet: `user_code` is bound
to the trimmed snippet. -/
def staged_dict (main_dict : Dict) (code : Str) : Dict :=
  PyDict_SetItemString main_dict "user_code" (PyObj.unicode (c_str (trimmed_code code)))

/-- The captured text of an error output: stdout, then the separator and stderr when
stderr is not empty (the separator only after a stdout that is not empty). -/
def stdout_then_stderr (stdout_str stderr_str : Str) : Str :=
  if stderr_str = [] then stdout_str
  else if stdout_str = [] then stderr_str
  else stdout_str ++ lit "\n--- STDERR ---\n" ++ stderr_str

/-- A trailing line: put on a line of its own after a text that is not empty. -/
def with_trailing_line (text line : Str) : Str :=
  if text = [] then line else text ++ lit "\n" ++ line

/-! ## A small Python runtime for concrete runs -/

/-- The trace `traceback` prints for an exception, abridged: the header and the closing
line `Type: message`, without the `File ...` lines of the frames in between. -/
def mini_trace (e : PyExc) : Str :=
  lit "Traceback (most recent call last):\n" ++ e.type_name ++ lit ": " ++ e.message ++ lit "\n"

/-- A snippet that raises on its first run in a session and not on later ones. -/
def raise_once : Str :=
  lit "if 'seen' not in globals():\n    seen = 1\n    raise ValueError('x')"

/-- What Python does on the handful of snippets used in the concrete runs below:
`1 + 1`, `x = 5`, `x`, `raise ValueError('x')`, `raise SystemExit('x')`, `raise_once`,
`print = lambda *a, **k: None` and `captured_stderr = None`.  Every other text is
treated as a syntax error.  A `print` that has been rebound is the function that does
nothing, and `getvalue` is an attribute of the two buffers only. -/
def mini_python : Python where
  decodes := is_well_formed_utf8
  prologue := fun main_dict => Except.ok (driver_entry main_dict)
  ast_parse := fun o st =>
    match o with
    | PyObj.unicode s =>
      if s = lit "1 + 1" ∨ s = lit "x" then (st, Except.ok [⟨true, s⟩])
      else if s = lit "x = 5" ∨ s = lit "raise ValueError('x')" ∨ s = lit "raise SystemExit('x')"
          ∨ s = raise_once ∨ s = lit "print = lambda *a, **k: None"
          ∨ s = lit "captured_stderr = None" then (st, Except.ok [⟨false, s⟩])
      else (st, Except.error ⟨true, lit "SyntaxError", lit "invalid syntax"⟩)
    | _ => (st, Except.error ⟨true, lit "TypeError", lit "expected str"⟩)
  isinstance_Expr := fun last st => (st, Except.ok last.is_Expr)
  compile_exec := fun pre st => (st, Except.ok (PyObj.code pre))
  compile_eval := fun last st => (st, Except.ok (PyObj.code [last]))
  exec_code := fun _ st => (st, none)
  eval_code := fun eval_code_obj st =>
    if eval_code_obj = PyObj.code [⟨true, lit "1 + 1"⟩] then (st, Except.ok (PyObj.int 2))
    else if eval_code_obj = PyObj.code [⟨true, lit "x"⟩] then
      match PyDict_GetItemString st.globals "x" with
      | some v => (st, Except.ok v)
      | none => (st, Except.error ⟨true, lit "NameError", lit "name 'x' is not defined"⟩)
    else (st, Except.error ⟨true, lit "TypeError", lit "eval() arg 1 must be a code object"⟩)
  repr := fun v st =>
    match v with
    | PyObj.int n => (st, Except.ok (to_string n))
    | _ => (st, Except.ok (lit "<object>"))
  print := fun r st =>
    match PyDict_GetItemString st.globals "print" with
    | none => ({ st with captured_stdout := st.captured_stdout ++ r ++ lit "\n" }, none)
    | some _ => (st, none)
  exec_object := fun o st =>
    match o with
    | PyObj.unicode s =>
      if s = lit "x = 5" then (st.bind "x" (PyObj.int 5), none)
      else if s = lit "raise ValueError('x')" then (st, some ⟨true, lit "ValueError", lit "x"⟩)
      else if s = lit "raise SystemExit('x')" then (st, some ⟨false, lit "SystemExit", lit "x"⟩)
      else if s = raise_once then
        (if (PyDict_GetItemString st.globals "seen").isSome then (st, none)
          else (st.bind "seen" (PyObj.int 1), some ⟨true, lit "ValueError", lit "x"⟩))
      else if s = lit "print = lambda *a, **k: None" then
        (st.bind "print" (PyObj.object "function <lambda>"), none)
      else if s = lit "captured_stderr = None" then (st.bind "captured_stderr" PyObj.None, none)
      else (st, some ⟨true, lit "SyntaxError", lit "invalid syntax"⟩)
    | _ => (st, some ⟨true, lit "TypeError", lit "exec() arg 1 must be a string"⟩)
  except_Exception := fun e _ => Except.ok e.is_Exception
  print_exc := fun e st =>
    ({ st.bind "traceback" (PyObj.object "module traceback") with
        captured_stderr := st.captured_stderr ++ mini_trace e }, none)
  store_result := fun is_stderr st =>
    match PyDict_GetItemString st.globals
        (if is_stderr then "captured_stderr" else "captured_stdout") with
    | some (PyObj.object _) =>
      (st.bind (if is_stderr then "stderr_result" else "stdout_result")
        (PyObj.unicode (if is_stderr then st.captured_stderr else st.captured_stdout)), none)
    | _ =>
      (st, some ⟨true, lit "AttributeError", lit "'NoneType' object has no attribute 'getvalue'"⟩)
  format_exception := fun e => some (mini_trace e)
  repr_exc := fun e => e.type_name ++ lit "('" ++ e.message ++ lit "')"

/-- A POSIX machine for concrete runs: `bash` on the scripts of `echo hello` and
`exit 3`; any other script prints nothing and exits with code 0. -/
def mini_posix : PosixWorld where
  wait := linux_wait
  temp_directory_path := some "/tmp"
  getpid := 4242
  time := 1700000000
  ofstream_opens := true
  permissions_ok := true
  popen := fun _ script =>
    if script = lit "#!/bin/bash\necho hello\n" then some ⟨lit "hello\n", 0, some []⟩
    else if script = lit "#!/bin/bash\nexit 3\n" then some ⟨[], 768, some []⟩
    else some ⟨[], 0, some []⟩

/-- A code page for concrete runs: Latin-1, where byte `b` is the character `U+00b`. -/
def latin1 : WinNls where
  acp_to_wide := fun s => some (s.map (fun b => b.val))
  utf8_to_wide := fun s => some (s.map (fun b => b.val))
  wide_to_utf8 := fun w => some (w.flatMap (fun u =>
    if u < 128 then [Fin.ofNat u] else [Fin.ofNat (192 + u / 64), Fin.ofNat (128 + u % 64)]))
  wide_to_acp := fun w => some (w.map (fun u => Fin.ofNat u))

/-- A Windows machine for concrete runs: `cmd.exe` on the scripts of `echo. 1>&2`,
`exit /b 3` and `echo hello`; any other script prints nothing and exits with code 0.
The flag says whether `fs::rename` succeeds. -/
def mini_windows (rename_ok : Bool) : WinWorld where
  nls := latin1
  temp_directory_path := some "C:\\Temp"
  GetTempFileNameW := some "C:\\Temp\\CMD1A2B"
  rename_ok := rename_ok
  ofstream_opens := true
  stdout_pipe_ok := true
  stdout_inherit_ok := true
  stderr_pipe_ok := true
  stderr_inherit_ok := true
  CreateProcessW := fun _ script =>
    if script = lit "@echo off\r\nchcp 65001 >nul 2>&1\r\necho. 1>&2\r\n" then
      Except.ok ⟨[], [lit "\r\n"], 0⟩
    else if script = lit "@echo off\r\nchcp 65001 >nul 2>&1\r\nexit /b 3\r\n" then
      Except.ok ⟨[], [], 3⟩
    else if script = lit "@echo off\r\nchcp 65001 >nul 2>&1\r\necho hello\r\n" then
      Except.ok ⟨[lit "hello\r\n"], [], 0⟩
    else Except.ok ⟨[], [], 0⟩

/-- A POSIX machine for concrete runs on which `pclose` fails: it returns `-1`, as it
does when the child has already been waited for (the host ignores `SIGCHLD`, or another
thread reaped it); the script of `true` writes nothing. -/
def unreaped_posix : PosixWorld :=
  { mini_posix with popen := fun _ _ => some ⟨[], -1, some []⟩ }

/-! ## Names for the encoding claims -/

/-- One sequence as `is_valid_utf8` steps over it: a lead byte it accepts, followed by
exactly the `bytes_to_read - 1` bytes of the form `10xxxxxx` it asks for. -/
def is_sequence (u : Str) : Bool :=
  match u with
  | [] => false
  | c :: conts =>
    decide (bytes_to_read c ≠ 0) && decide (conts.length + 1 = bytes_to_read c)
      && conts.all (fun b => b.val >>> 6 = 0x02)

/-- The standard UTF-8 encoding of a code point (RFC 3629): one to four bytes. -/
def utf8_encode (v : Nat) : Str :=
  if v < 0x80 then [Fin.ofNat v]
  else if v < 0x800 then [Fin.ofNat (0xC0 + v / 64), Fin.ofNat (0x80 + v % 64)]
  else if v < 0x10000 then
    [Fin.ofNat (0xE0 + v / 4096), Fin.ofNat (0x80 + v / 64 % 64), Fin.ofNat (0x80 + v % 64)]
  else
    [Fin.ofNat (0xF0 + v / 262144), Fin.ofNat (0x80 + v / 4096 % 64),
      Fin.ofNat (0x80 + v / 64 % 64), Fin.ofNat (0x80 + v % 64)]

/-- The standard UTF-8 encoding of a sequence of Unicode scalar values. -/
def utf8_encode_all (text : List Char) : Str :=
  text.flatMap (fun ch => utf8_encode ch.toNat)

/-- A POSIX machine for concrete runs on which the script of `printf '\xff'` writes the one
byte `0xFF` to its standard output. -/
def raw_posix : PosixWorld :=
  { mini_posix with
    popen := fun _ script =>
      if script = lit "#!/bin/bash\nprintf '\\xff'\n" then some ⟨[0xFF], 0, some []⟩
      else some ⟨[], 0, some []⟩ }

/-- A Windows machine for concrete runs on which the PowerShell script
`[Console]::OpenStandardOutput().WriteByte(255)` writes the one byte `0xFF` to its
standard output. -/
def raw_windows : WinWorld :=
  { mini_windows true with
    CreateProcessW := fun _ script =>
      if script = lit "[Console]::OpenStandardOutput().WriteByte(255)\n" then
        Except.ok ⟨[[0xFF]], [], 0⟩
      else Except.ok ⟨[], [], 0⟩ }

theorem c_str_of_no_nul (s : Str) (h : ∀ c ∈ s, c ≠ 0) : c_str s = s := by
  unfold c_str
  rw [List.takeWhile_eq_self_iff]
  intro c hc
  simpa using h c hc

theorem trimmed_blank (code : Str) (h : ∀ c ∈ code, c = 32 ∨ c = 9 ∨ c = 10 ∨ c = 13) :
    trimmed_code code = [] := by
  have hidx : code.findIdx (fun c => !(lit " \t\n\r").contains c) = code.length := by
    rw [List.findIdx_eq_length]
    intro c hc
    rcases h c hc with h | h | h | h <;> subst h <;> decide
  have hnone : find_first_not_of code (lit " \t\n\r") = none := by
    unfold find_first_not_of
    rw [hidx]
    exact if_neg (Nat.lt_irrefl _)
  unfold trimmed_code
  rw [hnone]

theorem format_output_rule (so se : Str) :
    ((format_output so se).status = Status.error ↔ se ≠ []) ∧
    ((format_output so se).status = Status.success ↔ se = []) ∧
    (so ≠ [] → se ≠ [] → (format_output so se).output = so ++ lit "\n--- STDERR ---\n" ++ se) ∧
    (so ≠ [] → se = [] → (format_output so se).output = so) ∧
    (so = [] → se ≠ [] → (format_output so se).output = se) ∧
    (so = [] → se = [] → (format_output so se).output = lit "[No output]") := by
  unfold format_output stderr_separator
  by_cases h1 : se = [] <;> by_cases h2 : so = [] <;> simp [h1, h2]

theorem format_output_ne_nil (so se : Str) : (format_output so se).output ≠ [] := by
  unfold format_output
  have hlit : lit "[No output]" ≠ [] := by decide
  by_cases h1 : se = [] <;> by_cases h2 : so = [] <;> simp [h1, h2, hlit]

/-- The POSIX build, when staging and launch succeed, builds its result from the captured
texts, stripped, and the wait status, hands it to `dump()` and leaves the `try` block
through the second `pclose`; it throws otherwise. -/
theorem posix_outcome (w : PosixWorld) (files : Files) (shell_name : String) (code : Str) :
    (execute_shell_code_posix w files shell_name code).2 =
      match posix_child w shell_name code with
      | some child => Outcome.double_pclose
          (if dump_accepts (posix_result_json w child).output then
            some (posix_result_json w child) else none)
      | none => Outcome.thrown
          (match w.temp_directory_path with
            | none => "filesystem error: temp_directory_path"
            | some temp_dir =>
              if w.ofstream_opens = false then
                "Could not create temporary file for shell execution."
              else if w.permissions_ok = false then "filesystem error: permissions"
              else "Failed to execute command: " ++ posix_command w temp_dir shell_name) := by
  unfold posix_child execute_shell_code_posix posix_result_json
  cases hd : w.temp_directory_path with
  | none => rfl
  | some temp_dir =>
    cases h1 : w.ofstream_opens <;> cases h2 : w.permissions_ok <;>
      simp only [posix_try, h1, h2] <;> try rfl
    cases hp : w.popen (posix_command w temp_dir shell_name)
        (posix_script shell_name (posix_ext shell_name) code) <;> simp [hp]

/-- For a launched child whose result `dump()` accepts, the POSIX build serializes that
result and then closes the stream a second time. -/
theorem posix_serializes (w : PosixWorld) (files : Files) (shell_name : String) (code : Str)
    (child : PosixChild) (h : posix_child w shell_name code = some child)
    (hd : dump_accepts (posix_result_json w child).output = true) :
    (execute_shell_code_posix w files shell_name code).2
      = Outcome.double_pclose (some (posix_result_json w child)) := by
  rw [posix_outcome, h]
  simp only [hd, if_true]

/-- The POSIX build never returns a result: it throws before the child is launched, or
it closes the stream of the launched child twice. -/
theorem posix_never_returns (w : PosixWorld) (files : Files) (shell_name : String) (code : Str)
    (r : ExecutionResult) :
    (execute_shell_code_posix w files shell_name code).2 ≠ Outcome.returned r := by
  rw [posix_outcome]
  cases posix_child w shell_name code with
  | some child => exact fun h => Outcome.noConfusion h
  | none => exact fun h => Outcome.noConfusion h

/-- The file made by `GetTempFileNameW` never has the final name: the rename always
takes place. -/
theorem tmp_ne_final (stem shell_name : String) :
    stem ++ ".tmp" ≠ stem ++ windows_ext shell_name := by
  intro h
  have hdata := congrArg String.data h
  simp only [String.data_append, List.append_cancel_left_eq] at hdata
  unfold windows_ext at hdata
  split at hdata <;> exact absurd hdata (by decide)

/-- The Windows build, when staging and launch succeed, builds its result from the
captured texts and the exit code and returns it if `dump()` accepts it; in every other
case it throws. -/
theorem windows_outcome (w : WinWorld) (files : Files) (shell_name : String) (code : Str) :
    match windows_child w shell_name code with
    | some child =>
      (execute_shell_code_windows w files shell_name code).2 =
        if dump_accepts (windows_result_json w shell_name child).output then
          Outcome.returned (windows_result_json w shell_name child)
        else Outcome.thrown type_error_316
    | none => ∃ what, (execute_shell_code_windows w files shell_name code).2 = Outcome.thrown what := by
  unfold windows_child execute_shell_code_windows windows_result_json
  cases hd : w.temp_directory_path with
  | none => exact ⟨_, rfl⟩
  | some temp_dir =>
    cases hs : w.GetTempFileNameW with
    | none => exact ⟨_, rfl⟩
    | some stem =>
      have hne := tmp_ne_final stem shell_name
      cases hcp : w.CreateProcessW
          (windows_command_line shell_name (stem ++ windows_ext shell_name))
          (windows_script w.nls shell_name code) <;>
        cases h0 : w.rename_ok <;> cases h1 : w.ofstream_opens <;>
        cases h2 : w.stdout_pipe_ok <;> cases h3 : w.stdout_inherit_ok <;>
        cases h4 : w.stderr_pipe_ok <;> cases h5 : w.stderr_inherit_ok <;>
        simp [windows_try, hne, h0, h1, h2, h3, h4, h5, hcp]
      rename_i child
      by_cases hda : dump_accepts (windows_result w.nls shell_name
          (read_chunks child.stdout_reads) (read_chunks child.stderr_reads)
          child.exit_code).output = true
      · simp [hda]
      · simp [hda]

theorem windows_returns (w : WinWorld) (files : Files) (shell_name : String) (code : Str)
    (child : WinChild) (h : windows_child w shell_name code = some child)
    (hd : dump_accepts (windows_result_json w shell_name child).output = true) :
    (execute_shell_code_windows w files shell_name code).2
      = Outcome.returned (windows_result_json w shell_name child) := by
  have ho := windows_outcome w files shell_name code
  rw [h] at ho
  simp only [hd, if_true] at ho
  exact ho

/-- For a launched child whose result `dump()` refuses, the Windows build throws the
exception of `dump()`. -/
theorem windows_throws (w : WinWorld) (files : Files) (shell_name : String) (code : Str)
    (child : WinChild) (h : windows_child w shell_name code = some child)
    (hd : dump_accepts (windows_result_json w shell_name child).output = false) :
    (execute_shell_code_windows w files shell_name code).2 = Outcome.thrown type_error_316 := by
  have ho := windows_outcome w files shell_name code
  rw [h] at ho
  simp only [hd, if_false, Bool.false_eq_true] at ho
  exact ho

/-- What `strip_line_ends` removes: a tail made of `'\n'` and `'\r'` only, and nothing
less, since what is left does not end in one of them. -/
theorem strip_line_ends_spec (s : Str) :
    (∃ t, s = strip_line_ends s ++ t ∧ ∀ c ∈ t, c = 10 ∨ c = 13) ∧
    ∀ h : strip_line_ends s ≠ [],
      (strip_line_ends s).getLast h ≠ 10 ∧ (strip_line_ends s).getLast h ≠ 13 := by
  constructor
  · refine ⟨s.rtakeWhile (fun c => c = 10 ∨ c = 13), ?_, ?_⟩
    · unfold strip_line_ends List.rdropWhile List.rtakeWhile
      rw [← List.reverse_append, List.takeWhile_append_dropWhile, List.reverse_reverse]
    · intro c hc
      have hp := List.mem_rtakeWhile_imp (p := fun c : Byte => decide (c = 10 ∨ c = 13)) hc
      exact of_decide_eq_true hp
  · intro h
    have hlast := List.rdropWhile_last_not (fun c : Byte => decide (c = 10 ∨ c = 13)) s h
    have hnot : ¬ ((strip_line_ends s).getLast h = 10 ∨ (strip_line_ends s).getLast h = 13) :=
      fun hor => hlast (decide_eq_true hor)
    exact ⟨fun h10 => hnot (Or.inl h10), fun h13 => hnot (Or.inr h13)⟩

theorem posix_result_status (wm : WaitMacros) (so se : Str) (st : Int) :
    ((posix_result wm so se st).status = Status.error ↔
      ¬ (wm.WIFEXITED st = true ∧ wm.WEXITSTATUS st = 0) ∨ se ≠ []) ∧
    ((posix_result wm so se st).status = Status.success ↔
      (wm.WIFEXITED st = true ∧ wm.WEXITSTATUS st = 0) ∧ se = []) := by
  unfold posix_result
  by_cases h : wm.WIFEXITED st = true ∧ wm.WEXITSTATUS st = 0 ∧ se = []
  · rw [if_pos h]
    simp [h.1, h.2.1, h.2.2]
  · rw [if_neg h]
    simp only [reduceCtorEq, false_iff, true_iff]
    constructor
    · by_contra hcon
      push_neg at hcon
      exact h ⟨hcon.1.1, hcon.1.2, hcon.2⟩
    · intro hcon
      exact h ⟨hcon.1.1, hcon.1.2, hcon.2⟩

theorem windows_result_status (nls : WinNls) (shell_name : String) (so se : Str) (n : Nat) :
    ((windows_result nls shell_name so se n).status = Status.error ↔
      n ≠ 0 ∨ windows_text nls shell_name se ≠ []) ∧
    ((windows_result nls shell_name so se n).status = Status.success ↔
      n = 0 ∧ windows_text nls shell_name se = []) := by
  unfold windows_result
  by_cases h : n ≠ 0 ∨ windows_text nls shell_name se ≠ []
  · simp only [if_pos h, true_iff, reduceCtorEq, false_iff]
    refine ⟨h, ?_⟩
    rintro ⟨h1, h2⟩
    rcases h with h | h
    · exact h h1
    · exact h h2
  · simp only [if_neg h, reduceCtorEq, false_iff, true_iff]
    push_neg at h
    exact ⟨by push_neg; exact h, h⟩

/-- The output of the POSIX build for a child that exited with code 0. -/
theorem posix_result_exit_zero (wm : WaitMacros) (so se : Str) (st : Int)
    (hexit : wm.WIFEXITED st = true) (hzero : wm.WEXITSTATUS st = 0) :
    posix_result wm so se st =
      if se = [] then ⟨Status.success, if so = [] then lit "[No output]" else so⟩
      else ⟨Status.error, stdout_then_stderr so se⟩ := by
  unfold posix_result stdout_then_stderr stderr_separator
  by_cases h1 : se = [] <;> by_cases h2 : so = [] <;> simp [h1, h2, hexit, hzero]

/-- The error output of the POSIX build for a child that exited with a code other than 0. -/
theorem posix_result_exit_nonzero (wm : WaitMacros) (so se : Str) (st : Int)
    (hexit : wm.WIFEXITED st = true) (hcode : wm.WEXITSTATUS st ≠ 0) :
    posix_result wm so se st = ⟨Status.error, with_trailing_line (stdout_then_stderr so se)
      (lit "Process exited with status: " ++ to_string (wm.WEXITSTATUS st))⟩ := by
  unfold posix_result stdout_then_stderr with_trailing_line stderr_separator
  by_cases h1 : se = [] <;> by_cases h2 : so = [] <;> simp [h1, h2, hexit, hcode]

/-- The error output of the POSIX build for a child terminated by a signal. -/
theorem posix_result_signaled (wm : WaitMacros) (so se : Str) (st : Int)
    (hexit : wm.WIFEXITED st = false) (hsig : wm.WIFSIGNALED st = true) :
    posix_result wm so se st = ⟨Status.error, with_trailing_line (stdout_then_stderr so se)
      (lit "Process terminated by signal: " ++ to_string (wm.WTERMSIG st))⟩ := by
  unfold posix_result stdout_then_stderr with_trailing_line stderr_separator
  by_cases h1 : se = [] <;> by_cases h2 : so = [] <;> simp [h1, h2, hexit, hsig]

/-- The error output of the Windows build for an exit code other than 0. -/
theorem windows_result_exit_nonzero (nls : WinNls) (shell_name : String) (so se : Str) (n : Nat)
    (hcode : n ≠ 0) :
    windows_result nls shell_name so se n = ⟨Status.error,
      with_trailing_line
        (stdout_then_stderr (windows_text nls shell_name so) (windows_text nls shell_name se))
        (lit "Process exited with code: " ++ to_string n)⟩ := by
  unfold windows_result stdout_then_stderr with_trailing_line stderr_separator
  by_cases h1 : windows_text nls shell_name se = [] <;>
    by_cases h2 : windows_text nls shell_name so = [] <;> simp [h1, h2, hcode]

theorem with_trailing_line_ne_nil (text line : Str) (h : line ≠ []) :
    with_trailing_line text line ≠ [] := by
  unfold with_trailing_line
  by_cases ht : text = []
  · simpa [ht] using h
  · simp [ht]

theorem with_trailing_line_suffix (text line : Str) : line <:+ with_trailing_line text line := by
  unfold with_trailing_line
  by_cases ht : text = []
  · simp [ht]
  · simp only [ht, if_false]
    exact List.suffix_append _ _

theorem posix_result_ne_nil (wm : WaitMacros) (so se : Str) (st : Int)
    (h : wm.WIFEXITED st = true ∨ wm.WIFSIGNALED st = true) :
    (posix_result wm so se st).output ≠ [] := by
  have hlit1 : lit "Process exited with status: " ≠ [] := by decide
  have hlit2 : lit "Process terminated by signal: " ≠ [] := by decide
  have hlit3 : lit "[No output]" ≠ [] := by decide
  by_cases hexit : wm.WIFEXITED st = true
  · by_cases hcode : wm.WEXITSTATUS st = 0
    · rw [posix_result_exit_zero wm so se st hexit hcode]
      unfold stdout_then_stderr
      by_cases h1 : se = [] <;> by_cases h2 : so = [] <;> simp [h1, h2, hlit3]
    · rw [posix_result_exit_nonzero wm so se st hexit hcode]
      exact with_trailing_line_ne_nil _ _ (by simp [hlit1])
  · have hsig : wm.WIFSIGNALED st = true := h.resolve_left hexit
    rw [posix_result_signaled wm so se st (by simpa using hexit) hsig]
    exact with_trailing_line_ne_nil _ _ (by simp [hlit2])

theorem windows_result_ne_nil (nls : WinNls) (shell_name : String) (so se : Str) (n : Nat) :
    (windows_result nls shell_name so se n).output ≠ [] := by
  have hlit1 : lit "Process exited with code: " ≠ [] := by decide
  have hlit3 : lit "[No output]" ≠ [] := by decide
  by_cases hcode : n = 0
  · unfold windows_result
    by_cases h1 : windows_text nls shell_name se = [] <;>
      by_cases h2 : windows_text nls shell_name so = [] <;> simp [h1, h2, hcode, hlit3]
  · rw [windows_result_exit_nonzero nls shell_name so se n hcode]
    exact with_trailing_line_ne_nil _ _ (by simp [hlit1])

theorem take_line_append_drop (l : Str) : take_line l ++ l.drop (take_line l).length = l := by
  induction l with
  | nil => rfl
  | cons c cs ih =>
    unfold take_line
    by_cases hc : c = 10
    · simp [hc]
    · simpa [hc] using ih

theorem take_line_length_le (l : Str) : (take_line l).length ≤ l.length := by
  induction l with
  | nil => simp [take_line]
  | cons c cs ih =>
    unfold take_line
    by_cases hc : c = 10
    · simp [hc]
    · simpa [hc] using ih

theorem take_line_ne_nil (l : Str) (h : l ≠ []) : take_line l ≠ [] := by
  cases l with
  | nil => exact absurd rfl h
  | cons c cs =>
    unfold take_line
    by_cases hc : c = 10 <;> simp [hc]

/-- A call of `fgets` that stores something splits the stream: what it stores, which is
not empty, followed by what is left. -/
theorem fgets_some (stream buffer rest : Str) (h : fgets 128 stream = some (buffer, rest)) :
    buffer ≠ [] ∧ buffer ++ rest = stream := by
  unfold fgets at h
  by_cases hs : stream = []
  · simp [hs] at h
  · simp only [hs, if_false, Option.some.injEq, Prod.mk.injEq] at h
    obtain ⟨hb, hr⟩ := h
    have htake : stream.take 127 ≠ [] := by
      cases stream with
      | nil => exact absurd rfl hs
      | cons c cs => simp
    refine ⟨hb ▸ take_line_ne_nil _ htake, ?_⟩
    have hsplit := take_line_append_drop (stream.take 127)
    have hle := take_line_length_le (stream.take 127)
    rw [← hr, ← hb]
    have hdrop : stream.drop (take_line (stream.take 127)).length
        = (stream.take 127).drop (take_line (stream.take 127)).length ++ stream.drop 127 := by
      have h2 := @List.drop_append_of_le_length _ _ (stream.drop 127) _ hle
      rw [List.take_append_drop] at h2
      exact h2
    rw [hdrop, ← List.append_assoc, hsplit, List.take_append_drop]

/-- The read loop hands back the stream itself when the child writes no NUL byte; a NUL
makes `result += buffer.data()` drop the rest of that buffer. -/
theorem read_pipe_of_no_nul (stream : Str) (h : ∀ c ∈ stream, c ≠ 0) : read_pipe stream = stream := by
  have key : ∀ (fuel : Nat) (s result : Str), s.length ≤ fuel → (∀ c ∈ s, c ≠ 0) →
      read_pipe_loop fuel s result = result ++ s := by
    intro fuel
    induction fuel with
    | zero =>
      intro s result hlen _
      have hs : s = [] := List.length_eq_zero.mp (Nat.le_zero.mp hlen)
      simp [read_pipe_loop, hs]
    | succ n ih =>
      intro s result hlen hnul
      unfold read_pipe_loop
      cases hf : fgets 128 s with
      | none =>
        have hs : s = [] := by
          unfold fgets at hf
          by_contra hne
          simp [hne] at hf
        simp [hs]
      | some p =>
        obtain ⟨buffer, rest⟩ := p
        obtain ⟨hne, hsplit⟩ := fgets_some s buffer rest hf
        have hlenb : 0 < buffer.length := List.length_pos.mpr hne
        have hlens : buffer.length + rest.length = s.length := by
          rw [← hsplit, List.length_append]
        have hb : ∀ c ∈ buffer, c ≠ 0 := fun c hc =>
          hnul c (hsplit ▸ List.mem_append_left rest hc)
        have hr : ∀ c ∈ rest, c ≠ 0 := fun c hc =>
          hnul c (hsplit ▸ List.mem_append_right buffer hc)
        simp only []
        rw [ih rest (result ++ c_str buffer) (by omega) hr, c_str_of_no_nul buffer hb,
          List.append_assoc, hsplit]
  simpa [read_pipe] using key stream.length stream [] (Nat.le_refl _) h

theorem execute_blank (py : Python) (main_dict : Dict) (code : Str) (h : trimmed_code code = []) :
    PythonExecutor.execute py main_dict code
      = (main_dict, Returned.json ⟨Status.success, lit "[No code to execute]"⟩) := by
  unfold PythonExecutor.execute
  rw [h]
  rfl

theorem execute_undecodable (py : Python) (main_dict : Dict) (code : Str)
    (h : trimmed_code code ≠ []) (hdec : py.decodes (c_str (trimmed_code code)) = false) :
    PythonExecutor.execute py main_dict code = (main_dict,
      Returned.text (lit "Error: Failed to create Python string from user code.")) := by
  unfold PythonExecutor.execute
  rw [if_neg h, if_pos hdec]

theorem execute_driver_failed (py : Python) (main_dict d : Dict) (code : Str) (e : PyExc)
    (h : trimmed_code code ≠ []) (hdec : py.decodes (c_str (trimmed_code code)) = true)
    (hrun : python_script py (staged_dict main_dict code) = (d, some e)) :
    PythonExecutor.execute py main_dict code = (PyDict_DelItemString d "user_code",
      Returned.json ⟨Status.error,
        lit "Execution wrapper failed: " ++ check_python_error py
          (some (if (PyDict_GetItemString d "user_code").isSome then e
            else KeyError "user_code"))⟩) := by
  unfold PythonExecutor.execute
  unfold staged_dict at hrun
  simp only [h, hdec, hrun, if_false, Bool.true_eq_false]

theorem execute_driver_ran (py : Python) (main_dict d : Dict) (code : Str)
    (h : trimmed_code code ≠ []) (hdec : py.decodes (c_str (trimmed_code code)) = true)
    (hrun : python_script py (staged_dict main_dict code) = (d, none)) :
    PythonExecutor.execute py main_dict code =
      (PyDict_DelItemString (PyDict_DelItemString (PyDict_DelItemString d "user_code")
          "stdout_result") "stderr_result",
        Returned.json
          (format_output (read_back d "stdout_result") (read_back d "stderr_result"))) := by
  unfold PythonExecutor.execute
  unfold staged_dict at hrun
  simp only [h, hdec, hrun, if_false, Bool.true_eq_false]

/-- A NUL byte written by the child cuts the buffer it falls in: `result += buffer.data()`
appends a C string. -/
theorem read_pipe_cut_at_nul : read_pipe [97, 0, 98, 10, 99] = [97, 99] := by
  decide

/-- A value of `pclose` that is neither an exit nor a signal status (here `-1`, its
error return) is classified `error` with no diagnostic line: with nothing captured the
output is empty. -/
theorem posix_result_unclassified :
    posix_result linux_wait [] [] (-1) = ⟨Status.error, []⟩ := by
  decide

theorem mem_remove (files : Files) (p q : String) : q ∈ remove files p ↔ q ∈ files ∧ q ≠ p := by
  simp [remove, List.mem_filter]

theorem mem_create_file (files : Files) (p q : String) :
    q ∈ create_file files p ↔ q ∈ files ∨ q = p := by
  unfold create_file
  by_cases h : p ∈ files
  · simp only [h, if_true]
    constructor
    · exact Or.inl
    · rintro (hq | hq)
      · exact hq
      · exact hq ▸ h
  · simp only [h, if_false, List.mem_cons]
    tauto

/-- The POSIX build leaves neither the temp script nor the stderr capture file behind,
however control leaves it. -/
theorem posix_cleans_up (w : PosixWorld) (files : Files) (shell_name : String) (code : Str)
    (temp_dir : String) (hd : w.temp_directory_path = some temp_dir) :
    posix_temp_file_path w temp_dir shell_name
        ∉ (execute_shell_code_posix w files shell_name code).1 ∧
      posix_stderr_path w temp_dir ∉ (execute_shell_code_posix w files shell_name code).1 := by
  unfold execute_shell_code_posix
  simp only [hd, posix_try]
  cases h1 : w.ofstream_opens
  · simp [mem_remove]
    split <;> simp [mem_remove]
    all_goals tauto
  · cases h2 : w.permissions_ok
    · simp [mem_remove, mem_create_file]
      split <;> simp [mem_remove, mem_create_file]
      all_goals tauto
    · cases hp : w.popen (posix_command w temp_dir shell_name)
          (posix_script shell_name (posix_ext shell_name) code) with
      | none => simp [mem_remove, mem_create_file]
      | some child => simp [mem_remove, mem_create_file]

/-- The Windows build leaves neither the file made by `GetTempFileNameW` nor the renamed
script behind once the rename has succeeded, however control leaves it. -/
theorem windows_cleans_up_after_rename (w : WinWorld) (files : Files) (shell_name : String)
    (code : Str) (temp_dir stem : String) (hd : w.temp_directory_path = some temp_dir)
    (hs : w.GetTempFileNameW = some stem) (hrename : w.rename_ok = true) :
    stem ++ ".tmp" ∉ (execute_shell_code_windows w files shell_name code).1 ∧
      stem ++ windows_ext shell_name
        ∉ (execute_shell_code_windows w files shell_name code).1 := by
  have hne := tmp_ne_final stem shell_name
  unfold execute_shell_code_windows
  simp only [hd, hs, windows_try, hrename]
  cases hcp : w.CreateProcessW
      (windows_command_line shell_name (stem ++ windows_ext shell_name))
      (windows_script w.nls shell_name code) <;>
    cases h1 : w.ofstream_opens <;>
    cases h2 : w.stdout_pipe_ok <;> cases h3 : w.stdout_inherit_ok <;>
    cases h4 : w.stderr_pipe_ok <;> cases h5 : w.stderr_inherit_ok <;>
    simp [hne, rename, mem_remove, mem_create_file]
  rename_i child
  by_cases hda : dump_accepts (windows_result w.nls shell_name
      (read_chunks child.stdout_reads) (read_chunks child.stderr_reads)
      child.exit_code).output = true
  · simp [hda, mem_remove, mem_create_file]
  · simp [hda, mem_remove, mem_create_file]

/-- The driver script when an exception leaves the guarded block. -/
theorem python_script_escaped (py : Python) (d : Dict) (st : PyState) (e : PyExc)
    (hpro : py.prologue d = Except.ok (driver_entry d))
    (h : guarded py (driver_entry d) = (st, some e)) :
    python_script py d = (st.globals, some e) := by
  unfold python_script
  simp only [hpro, h]

/-- The first argument of `is_valid_utf8_loop` does not matter once it is at least the
length of the input: the loop never runs out of rounds. -/
theorem is_valid_utf8_loop_fuel (fuel : Nat) (s : Str) (h : s.length ≤ fuel) :
    is_valid_utf8_loop fuel s = is_valid_utf8_loop s.length s := by
  induction fuel using Nat.strong_induction_on generalizing s with
  | _ fuel ih =>
    cases s with
    | nil => cases fuel <;> rfl
    | cons c rest =>
      cases fuel with
      | zero => simp at h
      | succ n =>
        simp only [List.length_cons] at h ⊢
        unfold is_valid_utf8_loop
        by_cases h0 : bytes_to_read c = 0
        · simp [h0]
        · have hdrop : (rest.drop (bytes_to_read c - 1)).length ≤ rest.length := by
            simp [List.length_drop]
          rw [ih n (Nat.lt_succ_self n) _ (by omega),
            ih rest.length (by omega) _ hdrop]

theorem is_valid_utf8_nil : is_valid_utf8 [] = true := rfl

/-- A text made of ASCII bytes only is valid. -/
theorem is_valid_utf8_of_ascii (s : Str) (h : ∀ c ∈ s, c.val < 0x80) : is_valid_utf8 s = true := by
  unfold is_valid_utf8
  induction s with
  | nil => rfl
  | cons c rest ih =>
    have hc : c.val < 0x80 := h c (List.mem_cons_self c rest)
    have hb : bytes_to_read c = 1 := by
      unfold bytes_to_read
      rw [if_pos hc]
    simp only [List.length_cons]
    unfold is_valid_utf8_loop
    simp only [hb]
    simpa using ih (fun x hx => h x (List.mem_cons_of_mem c hx))

/-- One round of the loop of `is_valid_utf8`, as an equation on the function itself. -/
theorem is_valid_utf8_cons (c : Byte) (rest : Str) :
    is_valid_utf8 (c :: rest) =
      (if bytes_to_read c = 0 then false
      else if (c :: rest).length < bytes_to_read c then false
      else if (rest.take (bytes_to_read c - 1)).all (fun next_byte => next_byte.val >>> 6 = 0x02)
        then is_valid_utf8 (rest.drop (bytes_to_read c - 1))
      else false) := by
  unfold is_valid_utf8
  simp only [List.length_cons]
  rw [is_valid_utf8_loop]
  rw [is_valid_utf8_loop_fuel rest.length (rest.drop (bytes_to_read c - 1))
    (by simp [List.length_drop])]
  simp only [List.length_cons]

/-- A sequence at the front is stepped over: validity is that of what follows. -/
theorem is_valid_utf8_sequence_append (u rest : Str) (h : is_sequence u = true) :
    is_valid_utf8 (u ++ rest) = is_valid_utf8 rest := by
  cases u with
  | nil => simp [is_sequence] at h
  | cons c conts =>
    simp only [is_sequence, Bool.and_eq_true, decide_eq_true_eq] at h
    obtain ⟨⟨h0, hlen⟩, hall⟩ := h
    rw [List.cons_append, is_valid_utf8_cons, if_neg h0]
    have hk : bytes_to_read c - 1 = conts.length := by omega
    rw [hk, List.take_left, List.drop_left, if_neg (by simp [List.length_append]; omega),
      if_pos hall]

/-- The first argument of `well_formed_loop` does not matter once it is at least the
length of the input: the loop never runs out of rounds. -/
theorem well_formed_loop_fuel (fuel : Nat) (s : Str) (h : s.length ≤ fuel) :
    well_formed_loop fuel s = well_formed_loop s.length s := by
  induction fuel using Nat.strong_induction_on generalizing s with
  | _ fuel ih =>
    cases s with
    | nil => cases fuel <;> rfl
    | cons c rest =>
      cases fuel with
      | zero => simp at h
      | succ n =>
        simp only [List.length_cons] at h ⊢
        unfold well_formed_loop
        by_cases h0 : well_formed_length (c :: rest) = 0
        · simp [h0]
        · have hpos : 0 < well_formed_length (c :: rest) := Nat.pos_of_ne_zero h0
          have hdrop : ((c :: rest).drop (well_formed_length (c :: rest))).length ≤ rest.length := by
            simp only [List.length_drop, List.length_cons]
            omega
          rw [if_neg h0, if_neg h0, ih n (Nat.lt_succ_self n) _ (by omega),
            ih rest.length (by omega) _ hdrop]

/-- A run of sequences at the front is stepped over. -/
theorem is_valid_utf8_sequences_append (us : List Str) (rest : Str)
    (h : ∀ u ∈ us, is_sequence u = true) :
    is_valid_utf8 (us.flatten ++ rest) = is_valid_utf8 rest := by
  induction us with
  | nil => rfl
  | cons u us ih =>
    rw [List.flatten_cons, List.append_assoc,
      is_valid_utf8_sequence_append u _ (h u (List.mem_cons_self u us)),
      ih (fun x hx => h x (List.mem_cons_of_mem u hx))]

/-- The lead bytes `is_valid_utf8` refuses: `10xxxxxx` and `11111xxx`. -/
theorem bytes_to_read_eq_zero (c : Byte) :
    bytes_to_read c = 0 ↔ (0x80 ≤ c.val ∧ c.val ≤ 0xBF) ∨ 0xF8 ≤ c.val := by
  revert c
  decide

/-- An accepted text splits into sequences. -/
theorem sequences_of_valid (s : Str) (h : is_valid_utf8 s = true) :
    ∃ us : List Str, (∀ u ∈ us, is_sequence u = true) ∧ us.flatten = s := by
  obtain ⟨n, hn⟩ : ∃ n, s.length = n := ⟨_, rfl⟩
  induction n using Nat.strong_induction_on generalizing s with
  | _ n ih =>
    cases s with
    | nil => exact ⟨[], by simp, rfl⟩
    | cons c rest =>
      rw [is_valid_utf8_cons] at h
      by_cases h0 : bytes_to_read c = 0
      · rw [if_pos h0] at h
        cases h
      · rw [if_neg h0] at h
        by_cases h1 : (c :: rest).length < bytes_to_read c
        · rw [if_pos h1] at h
          cases h
        · rw [if_neg h1] at h
          by_cases h2 : (rest.take (bytes_to_read c - 1)).all
              (fun next_byte => decide (next_byte.val >>> 6 = 0x02)) = true
          · rw [if_pos h2] at h
            simp only [List.length_cons] at h1 hn
            obtain ⟨us, hus, hflat⟩ := ih (rest.drop (bytes_to_read c - 1)).length
              (by simp [List.length_drop]; omega) _ h rfl
            refine ⟨(c :: rest.take (bytes_to_read c - 1)) :: us, ?_, ?_⟩
            · intro u hu
              rcases List.mem_cons.mp hu with rfl | hu
              · simp only [is_sequence, Bool.and_eq_true, decide_eq_true_eq]
                refine ⟨⟨h0, ?_⟩, h2⟩
                rw [List.length_take]
                omega
              · exact hus u hu
            · rw [List.flatten_cons, hflat, List.cons_append, List.take_append_drop]
          · rw [if_neg h2] at h
            cases h

/-- Two accepted texts put one after the other are accepted. -/
theorem is_valid_utf8_append (a b : Str) (ha : is_valid_utf8 a = true)
    (hb : is_valid_utf8 b = true) : is_valid_utf8 (a ++ b) = true := by
  obtain ⟨us, hus, rfl⟩ := sequences_of_valid a ha
  rw [is_valid_utf8_sequences_append us b hus]
  exact hb

/-- The encoding of a code point below `0x110000` is one sequence for `is_valid_utf8`. -/
theorem is_sequence_utf8_encode (v : Nat) (hv : v < 0x110000) :
    is_sequence (utf8_encode v) = true := by
  unfold utf8_encode
  by_cases h1 : v < 0x80
  · rw [if_pos h1]
    have hb : bytes_to_read (Fin.ofNat v) = 1 := by
      unfold bytes_to_read
      rw [if_pos (by simp only [Fin.ofNat, Nat.mod_eq_of_lt (by omega : v < 255 + 1)]; exact h1)]
    simp [is_sequence, hb]
  · rw [if_neg h1]
    by_cases h2 : v < 0x800
    · rw [if_pos h2]
      have hb : bytes_to_read (Fin.ofNat (0xC0 + v / 64)) = 2 := by
        unfold bytes_to_read
        simp only [Fin.ofNat, Nat.shiftRight_eq_div_pow]
        rw [Nat.mod_eq_of_lt (by omega)]
        rw [if_neg (by omega), if_pos (by omega)]
      have hc : (Fin.ofNat (0x80 + v % 64) : Byte).val >>> 6 = 2 := by
        simp only [Fin.ofNat, Nat.shiftRight_eq_div_pow]
        rw [Nat.mod_eq_of_lt (by omega)]
        omega
      simp [is_sequence, hb, hc]
    · rw [if_neg h2]
      by_cases h3 : v < 0x10000
      · rw [if_pos h3]
        have hb : bytes_to_read (Fin.ofNat (0xE0 + v / 4096)) = 3 := by
          unfold bytes_to_read
          simp only [Fin.ofNat, Nat.shiftRight_eq_div_pow]
          rw [Nat.mod_eq_of_lt (by omega)]
          rw [if_neg (by omega), if_neg (by omega), if_pos (by omega)]
        have hc1 : (Fin.ofNat (0x80 + v / 64 % 64) : Byte).val >>> 6 = 2 := by
          simp only [Fin.ofNat, Nat.shiftRight_eq_div_pow]
          rw [Nat.mod_eq_of_lt (by omega)]
          omega
        have hc2 : (Fin.ofNat (0x80 + v % 64) : Byte).val >>> 6 = 2 := by
          simp only [Fin.ofNat, Nat.shiftRight_eq_div_pow]
          rw [Nat.mod_eq_of_lt (by omega)]
          omega
        simp [is_sequence, hb, hc1, hc2]
      · rw [if_neg h3]
        have hb : bytes_to_read (Fin.ofNat (0xF0 + v / 262144)) = 4 := by
          unfold bytes_to_read
          simp only [Fin.ofNat, Nat.shiftRight_eq_div_pow]
          rw [Nat.mod_eq_of_lt (by omega)]
          rw [if_neg (by omega), if_neg (by omega), if_neg (by omega), if_pos (by omega)]
        have hc0 : (Fin.ofNat (0x80 + v / 4096 % 64) : Byte).val >>> 6 = 2 := by
          simp only [Fin.ofNat, Nat.shiftRight_eq_div_pow]
          rw [Nat.mod_eq_of_lt (by omega)]
          omega
        have hc1 : (Fin.ofNat (0x80 + v / 64 % 64) : Byte).val >>> 6 = 2 := by
          simp only [Fin.ofNat, Nat.shiftRight_eq_div_pow]
          rw [Nat.mod_eq_of_lt (by omega)]
          omega
        have hc2 : (Fin.ofNat (0x80 + v % 64) : Byte).val >>> 6 = 2 := by
          simp only [Fin.ofNat, Nat.shiftRight_eq_div_pow]
          rw [Nat.mod_eq_of_lt (by omega)]
          omega
        simp [is_sequence, hb, hc0, hc1, hc2]

theorem char_toNat_lt (ch : Char) : ch.toNat < 0x110000 := by
  have h := ch.valid
  unfold Char.toNat
  unfold UInt32.isValidChar Nat.isValidChar at h
  omega

/-- The encoder `utf8_encode` gives the bytes of the library encoder `String.utf8EncodeChar`
at the first and last code point of every length, and next to the surrogate gap. -/
theorem utf8_encode_agrees :
    ∀ ch ∈ [Char.ofNat 0, 'A', Char.ofNat 0x7F, Char.ofNat 0x80, 'é', Char.ofNat 0x7FF,
        Char.ofNat 0x800, '€', Char.ofNat 0xD7FF, Char.ofNat 0xE000, Char.ofNat 0xFFFF,
        Char.ofNat 0x10000, '😀', Char.ofNat 0x10FFFF],
      (String.utf8EncodeChar ch).map (fun b => b.val) = utf8_encode ch.toNat := by
  decide

theorem char_scalar (ch : Char) :
    ch.toNat < 0xD800 ∨ (0xDFFF < ch.toNat ∧ ch.toNat < 0x110000) := by
  have h := ch.valid
  unfold Char.toNat
  unfold UInt32.isValidChar Nat.isValidChar at h
  omega

theorem byte_val_ofNat (n : Nat) (h : n < 256) : (Fin.ofNat n : Byte).val = n := by
  simp only [Fin.ofNat]
  exact Nat.mod_eq_of_lt h

theorem is_continuation_ofNat (n : Nat) (h : n < 64) :
    is_continuation (Fin.ofNat (0x80 + n)) = true := by
  unfold is_continuation
  rw [byte_val_ofNat _ (by omega)]
  simp only [decide_eq_true_eq]
  omega

/-- The standard encoding of a scalar value is one well-formed sequence. -/
theorem well_formed_length_utf8_encode (v : Nat)
    (hv : v < 0xD800 ∨ (0xDFFF < v ∧ v < 0x110000)) (rest : Str) :
    well_formed_length (utf8_encode v ++ rest) = (utf8_encode v).length ∧
      (utf8_encode v).length ≠ 0 := by
  unfold utf8_encode
  by_cases h1 : v < 0x80
  · rw [if_pos h1]
    refine ⟨?_, by simp⟩
    simp only [List.cons_append, List.nil_append, well_formed_length]
    rw [byte_val_ofNat _ (by omega), if_pos h1]
    rfl
  · rw [if_neg h1]
    by_cases h2 : v < 0x800
    · rw [if_pos h2]
      refine ⟨?_, by simp⟩
      simp only [List.cons_append, List.nil_append, well_formed_length]
      rw [byte_val_ofNat _ (by omega), if_neg (by omega), if_pos (by omega),
        is_continuation_ofNat _ (Nat.mod_lt _ (by omega))]
      rfl
    · rw [if_neg h2]
      by_cases h3 : v < 0x10000
      · rw [if_pos h3]
        refine ⟨?_, by simp⟩
        simp only [List.cons_append, List.nil_append, well_formed_length]
        rw [byte_val_ofNat (0xE0 + v / 4096) (by omega), if_neg (by omega), if_neg (by omega),
          if_pos (by omega), is_continuation_ofNat _ (Nat.mod_lt _ (by omega)),
          is_continuation_ofNat _ (Nat.mod_lt _ (by omega)),
          byte_val_ofNat (0x80 + v / 64 % 64) (by omega)]
        rw [if_pos (by refine ⟨rfl, rfl, ?_, ?_⟩ <;> omega)]
        rfl
      · rw [if_neg h3]
        refine ⟨?_, by simp⟩
        simp only [List.cons_append, List.nil_append, well_formed_length]
        rw [byte_val_ofNat (0xF0 + v / 262144) (by omega), if_neg (by omega), if_neg (by omega),
          if_neg (by omega), if_pos (by omega), is_continuation_ofNat _ (Nat.mod_lt _ (by omega)),
          is_continuation_ofNat _ (Nat.mod_lt _ (by omega)),
          is_continuation_ofNat _ (Nat.mod_lt _ (by omega)),
          byte_val_ofNat (0x80 + v / 4096 % 64) (by omega)]
        rw [if_pos (by refine ⟨rfl, rfl, rfl, ?_, ?_⟩ <;> omega)]
        rfl

theorem is_well_formed_utf8_encode_append (v : Nat)
    (hv : v < 0xD800 ∨ (0xDFFF < v ∧ v < 0x110000)) (rest : Str) :
    is_well_formed_utf8 (utf8_encode v ++ rest) = is_well_formed_utf8 rest := by
  obtain ⟨hlen, hne⟩ := well_formed_length_utf8_encode v hv rest
  unfold is_well_formed_utf8
  cases hu : utf8_encode v ++ rest with
  | nil =>
    have h0 : (utf8_encode v ++ rest).length = 0 := by rw [hu]; rfl
    simp only [List.length_append] at h0
    omega
  | cons c r =>
    have hle : rest.length ≤ r.length := by
      have h0 := congrArg List.length hu
      simp only [List.length_append, List.length_cons] at h0
      omega
    rw [hu] at hlen
    have hstep : well_formed_loop (r.length + 1) (c :: r)
        = well_formed_loop r.length ((c :: r).drop (well_formed_length (c :: r))) := by
      rw [well_formed_loop, if_neg (by rw [hlen]; exact hne)]
    simp only [List.length_cons]
    rw [hstep, hlen, ← hu, List.drop_left]
    exact well_formed_loop_fuel _ _ hle

/-- The standard UTF-8 encoding of every sequence of Unicode scalar values is well-formed:
`dump()` accepts every text that is UTF-8. -/
theorem utf8_encode_all_well_formed (text : List Char) :
    is_well_formed_utf8 (utf8_encode_all text) = true := by
  induction text with
  | nil => rfl
  | cons ch t ih =>
    have hcons : utf8_encode_all (ch :: t) = utf8_encode ch.toNat ++ utf8_encode_all t := by
      simp [utf8_encode_all]
    rw [hcons, is_well_formed_utf8_encode_append _ (char_scalar ch), ih]

theorem digitChar_ascii (d : Nat) : (Nat.digitChar d).toNat < 128 := by
  by_cases h : d < 16
  · interval_cases d <;> decide
  · unfold Nat.digitChar
    iterate 16 rw [if_neg (by omega)]
    decide

theorem toDigitsCore_ascii (base fuel n : Nat) (ds : List Char)
    (h : ∀ ch ∈ ds, ch.toNat < 128) : ∀ ch ∈ Nat.toDigitsCore base fuel n ds, ch.toNat < 128 := by
  induction fuel generalizing n ds with
  | zero => simpa [Nat.toDigitsCore] using h
  | succ f ih =>
    have hcons : ∀ ch ∈ Nat.digitChar (n % base) :: ds, ch.toNat < 128 := by
      intro ch hch
      rcases List.mem_cons.mp hch with rfl | hch
      · exact digitChar_ascii _
      · exact h ch hch
    unfold Nat.toDigitsCore
    by_cases hz : n / base = 0
    · simpa [hz] using hcons
    · simpa [hz] using ih (n / base) _ hcons

/-- The decimal text of a number that is not negative is made of ASCII bytes. -/
theorem to_string_nat_ascii (n : Nat) : ∀ b ∈ to_string (n : Int), b.val < 0x80 := by
  intro b hb
  have hrepr : toString ((n : Nat) : Int) = (Nat.toDigits 10 n).asString := rfl
  unfold to_string lit at hb
  rw [hrepr] at hb
  obtain ⟨ch, hch, rfl⟩ := List.mem_map.mp hb
  have hlt : ch.toNat < 128 :=
    toDigitsCore_ascii 10 (n + 1) n [] (by simp) ch (by simpa [Nat.toDigits] using hch)
  simp only [Fin.ofNat]
  omega

/-- The text `sanitize_output_for_utf8` returns is accepted by `is_valid_utf8`. -/
theorem sanitized_is_valid (nls : WinNls) (output : Str) :
    is_valid_utf8 (sanitize_output_for_utf8 nls output) = true := by
  unfold sanitize_output_for_utf8
  by_cases h0 : output = []
  · rw [if_pos h0, h0]
    rfl
  · rw [if_neg h0]
    by_cases h1 : is_valid_utf8 output = true
    · rw [if_pos h1]
      exact h1
    · rw [if_neg h1]
      by_cases h2 : is_valid_utf8 (convert_ansi_to_utf8 nls output) = true
      · simp only [h2, if_true]
      · simp only [h2]
        apply is_valid_utf8_of_ascii
        intro c hc
        obtain ⟨x, _, rfl⟩ := List.mem_map.mp hc
        by_cases hx : x.val < 0x80
        · rw [if_pos hx]
          exact hx
        · rw [if_neg hx]
          decide

theorem windows_text_batch_valid (nls : WinNls) (captured : Str) :
    is_valid_utf8 (windows_text nls "batch" captured) = true := by
  unfold windows_text
  split_ifs with h0 h1
  · exact sanitized_is_valid nls captured
  · exact absurd rfl h1
  · rfl

theorem stdout_then_stderr_valid (a b : Str) (ha : is_valid_utf8 a = true)
    (hb : is_valid_utf8 b = true) : is_valid_utf8 (stdout_then_stderr a b) = true := by
  have hsep : is_valid_utf8 (lit "\n--- STDERR ---\n") = true := by decide
  unfold stdout_then_stderr
  by_cases h1 : b = []
  · rw [if_pos h1]
    exact ha
  · rw [if_neg h1]
    by_cases h2 : a = []
    · rw [if_pos h2]
      exact hb
    · rw [if_neg h2]
      exact is_valid_utf8_append _ _ (is_valid_utf8_append _ _ ha hsep) hb

theorem with_trailing_line_valid (text line : Str) (ht : is_valid_utf8 text = true)
    (hl : is_valid_utf8 line = true) : is_valid_utf8 (with_trailing_line text line) = true := by
  have hnl : is_valid_utf8 (lit "\n") = true := by decide
  unfold with_trailing_line
  by_cases h1 : text = []
  · rw [if_pos h1]
    exact hl
  · rw [if_neg h1]
    exact is_valid_utf8_append _ _ (is_valid_utf8_append _ _ ht hnl) hl

/-- The result of the Windows build for exit code 0. -/
theorem windows_result_exit_zero (nls : WinNls) (shell_name : String) (so se : Str) :
    windows_result nls shell_name so se 0 =
      if windows_text nls shell_name se = [] then
        ⟨Status.success, if windows_text nls shell_name so = [] then lit "[No output]"
          else windows_text nls shell_name so⟩
      else ⟨Status.error,
        stdout_then_stderr (windows_text nls shell_name so) (windows_text nls shell_name se)⟩ := by
  unfold windows_result stdout_then_stderr stderr_separator
  by_cases h1 : windows_text nls shell_name se = [] <;>
    by_cases h2 : windows_text nls shell_name so = [] <;> simp [h1, h2]

/-- The output the Windows build builds for the shell `batch` is accepted by
`is_valid_utf8`. -/
theorem windows_result_batch_valid (nls : WinNls) (so se : Str) (n : Nat) :
    is_valid_utf8 (windows_result nls "batch" so se n).output = true := by
  have hso := windows_text_batch_valid nls so
  have hse := windows_text_batch_valid nls se
  by_cases hn : n = 0
  · have hno : is_valid_utf8 (lit "[No output]") = true := by decide
    rw [hn, windows_result_exit_zero]
    by_cases h1 : windows_text nls "batch" se = []
    · rw [if_pos h1]
      by_cases h2 : windows_text nls "batch" so = []
      · simp only [h2, if_true]
        exact hno
      · simp only [h2, if_false]
        exact hso
    · rw [if_neg h1]
      exact stdout_then_stderr_valid _ _ hso hse
  · have hhead : is_valid_utf8 (lit "Process exited with code: ") = true := by decide
    rw [windows_result_exit_nonzero nls "batch" so se n hn]
    exact with_trailing_line_valid _ _ (stdout_then_stderr_valid _ _ hso hse)
      (is_valid_utf8_append _ _ hhead (is_valid_utf8_of_ascii _ (to_string_nat_ascii n)))

/-- The result built for a child that ended abnormally is `error`, and its output is the
captured stdout/stderr text followed by a trailing line that ends in the decimal exit
code (POSIX: `Process exited with status: n`; Windows: `Process exited with code: n`) or
signal number (POSIX: `Process terminated by signal: s`). -/
theorem abnormal_exit_results :
    (∀ (w : PosixWorld) (child : PosixChild) (n : Int),
      w.wait.WIFEXITED child.pclose = true → w.wait.WEXITSTATUS child.pclose = n → n ≠ 0 →
      (posix_result_json w child).status = Status.error ∧
        (posix_result_json w child).output = with_trailing_line
          (stdout_then_stderr (strip_line_ends (read_pipe child.stdout))
            (strip_line_ends (child.stderr_file.getD [])))
          (lit "Process exited with status: " ++ to_string n) ∧
        to_string n <:+ (posix_result_json w child).output) ∧
    (∀ (w : PosixWorld) (child : PosixChild) (s : Int),
      w.wait.WIFEXITED child.pclose = false → w.wait.WIFSIGNALED child.pclose = true →
      w.wait.WTERMSIG child.pclose = s →
      (posix_result_json w child).status = Status.error ∧
        (posix_result_json w child).output = with_trailing_line
          (stdout_then_stderr (strip_line_ends (read_pipe child.stdout))
            (strip_line_ends (child.stderr_file.getD [])))
          (lit "Process terminated by signal: " ++ to_string s) ∧
        to_string s <:+ (posix_result_json w child).output) ∧
    (∀ (w : WinWorld) (shell_name : String) (child : WinChild) (n : Nat),
      child.exit_code = n → n ≠ 0 →
      (windows_result_json w shell_name child).status = Status.error ∧
        (windows_result_json w shell_name child).output = with_trailing_line
          (stdout_then_stderr (windows_text w.nls shell_name (read_chunks child.stdout_reads))
            (windows_text w.nls shell_name (read_chunks child.stderr_reads)))
          (lit "Process exited with code: " ++ to_string n) ∧
        to_string n <:+ (windows_result_json w shell_name child).output) := by
  refine ⟨?_, ?_, ?_⟩
  · intro w child n hexit hn hne
    subst hn
    unfold posix_result_json
    refine ⟨?_, ?_, ?_⟩ <;> rw [posix_result_exit_nonzero _ _ _ _ hexit hne]
    exact (List.suffix_append _ _).trans (with_trailing_line_suffix _ _)
  · intro w child s hexit hsig hs
    subst hs
    unfold posix_result_json
    refine ⟨?_, ?_, ?_⟩ <;> rw [posix_result_signaled _ _ _ _ hexit hsig]
    exact (List.suffix_append _ _).trans (with_trailing_line_suffix _ _)
  · intro w shell_name child n hn hne
    subst hn
    unfold windows_result_json
    refine ⟨?_, ?_, ?_⟩ <;> rw [windows_result_exit_nonzero _ _ _ _ _ hne]
    exact (List.suffix_append _ _).trans (with_trailing_line_suffix _ _)

/-- On the Windows build the snippet `exit /b 3` returns `error` with the output
`Process exited with code: 3`. -/
theorem windows_exit_3 :
    execute_shell_code_windows (mini_windows true) [] "batch" (lit "exit /b 3")
      = ([], Outcome.returned ⟨Status.error, lit "Process exited with code: 3"⟩) := by
  decide

/-- Raw bytes that are not UTF-8 reach `dump()` wherever the normalizer is not applied:
for a PowerShell child on the Windows build that writes the byte `0xFF` the call throws
`type_error.316`, and for such a child on the POSIX build nothing is serialized. -/
theorem dump_refuses_raw_bytes :
    execute_shell_code_windows raw_windows [] "powershell"
        (lit "[Console]::OpenStandardOutput().WriteByte(255)")
      = ([], Outcome.thrown type_error_316) ∧
    execute_shell_code_posix raw_posix [] "bash" (lit "printf '\\xff'")
      = ([], Outcome.double_pclose none) := by
  decide

/-- What `is_valid_utf8` lets through, `dump()` may still refuse: a batch child that
writes the overlong form `C0 AF` gets its output past the normalizer unchanged, and the
call throws `type_error.316`. -/
theorem dump_refuses_overlong :
    is_valid_utf8 [0xC0, 0xAF] = true ∧ dump_accepts [0xC0, 0xAF] = false ∧
    (windows_result latin1 "batch" [0xC0, 0xAF] [] 0).output = [0xC0, 0xAF] := by
  decide

/-- Every JSON result of `PythonExecutor::execute` has an output that is not empty, and so
has the result built by the Windows build, and the result built by the POSIX build when
the value of `pclose` is an exit status or a signal status. -/
theorem output_nonempty_when_classified :
    (∀ (py : Python) (main_dict : Dict) (code : Str) (r : ExecutionResult),
      (PythonExecutor.execute py main_dict code).2 = Returned.json r → r.output ≠ []) ∧
    (∀ (w : PosixWorld) (child : PosixChild),
      (w.wait.WIFEXITED child.pclose = true ∨ w.wait.WIFSIGNALED child.pclose = true) →
      (posix_result_json w child).output ≠ []) ∧
    (∀ (w : WinWorld) (shell_name : String) (child : WinChild),
      (windows_result_json w shell_name child).output ≠ []) := by
  refine ⟨?_, ?_, ?_⟩
  · intro py main_dict code r h
    by_cases h1 : trimmed_code code = []
    · rw [execute_blank py main_dict code h1] at h
      cases h
      decide
    · cases h2 : py.decodes (c_str (trimmed_code code)) with
      | false =>
        rw [execute_undecodable py main_dict code h1 h2] at h
        cases h
      | true =>
        cases hrun : python_script py (staged_dict main_dict code) with
        | mk d err =>
          cases err with
          | some e =>
            rw [execute_driver_failed py main_dict d code e h1 h2 hrun] at h
            cases h
            have hlit : lit "Execution wrapper failed: " ≠ [] := by decide
            simp [hlit]
          | none =>
            rw [execute_driver_ran py main_dict d code h1 h2 hrun] at h
            cases h
            exact format_output_ne_nil _ _
  · intro w child hterm
    exact posix_result_ne_nil _ _ _ _ hterm
  · intro w shell_name child
    exact windows_result_ne_nil _ _ _ _ _

/-- The driver prints with whatever `print` is bound to: in a session where an earlier
snippet rebound `print` to a function that does nothing, `1 + 1` gives `[No output]`. -/
theorem rebound_print_is_used :
    (PythonExecutor.call mini_python
        (PythonExecutor.call mini_python ⟨[], false⟩ (lit "print = lambda *a, **k: None")).1
        (lit "1 + 1")).2
      = CallOutcome.returned (Returned.json ⟨Status.success, lit "[No output]"⟩) := by
  decide

/-- The closing statements of the driver run outside its `try`: after the snippet
`captured_stderr = None` line 307 binds `stdout_result`, line 308 raises
`AttributeError`, the host reports the failure of the wrapper and deletes `user_code`
only, and `stdout_result` stays bound. -/
theorem closing_statement_can_fail :
    (python_script mini_python (staged_dict [] (lit "captured_stderr = None"))).2
      = some ⟨true, lit "AttributeError", lit "'NoneType' object has no attribute 'getvalue'"⟩ ∧
    (∃ r, (PythonExecutor.call mini_python ⟨[], false⟩ (lit "captured_stderr = None")).2
        = CallOutcome.returned (Returned.json r) ∧
      r.status = Status.error ∧ lit "Execution wrapper failed: " <+: r.output) ∧
    PyDict_GetItemString
        (PythonExecutor.call mini_python ⟨[], false⟩ (lit "captured_stderr = None")).1.main_dict
        "stdout_result" = some (PyObj.unicode []) ∧
    PyDict_GetItemString
        (PythonExecutor.call mini_python ⟨[], false⟩ (lit "captured_stderr = None")).1.main_dict
        "user_code" = none :=
  ⟨by decide,
    ⟨⟨Status.error, lit "Execution wrapper failed: " ++ mini_trace
        ⟨true, lit "AttributeError", lit "'NoneType' object has no attribute 'getvalue'"⟩⟩,
      by decide, rfl, ⟨_, rfl⟩⟩,
    by decide, by decide⟩

/-- A snippet that is not UTF-8 makes `PyUnicode_FromString` fail; `execute` returns its
message and leaves the error set, and the next call of the session that is not blank
enters the interpreter with that error pending. -/
theorem error_pending_after_undecodable :
    PythonExecutor.call mini_python ⟨[], false⟩ [0xFF]
      = (⟨[], true⟩, CallOutcome.returned
          (Returned.text (lit "Error: Failed to create Python string from user code."))) ∧
    (PythonExecutor.call mini_python ⟨[], true⟩ (lit "1 + 1")).2
      = CallOutcome.error_pending ∧
    PythonExecutor.call mini_python ⟨[], true⟩ (lit " \n")
      = (⟨[], true⟩, CallOutcome.returned
          (Returned.json ⟨Status.success, lit "[No code to execute]"⟩)) := by
  decide

/-! ## The claims -/

/-- C1: a snippet that is empty or made only of space, tab, line feed and carriage
return gets the result `success` / `[No code to execute]`; the session namespace is
returned as it was and the answer is the same for every runtime, so nothing was bound
and the driver was not run. -/
theorem C1_blank_snippet (py : Python) (main_dict : Dict) (code : Str)
    (h : ∀ c ∈ code, c = 32 ∨ c = 9 ∨ c = 10 ∨ c = 13) :
    PythonExecutor.execute py main_dict code
      = (main_dict, Returned.json ⟨Status.success, lit "[No code to execute]"⟩) :=
  execute_blank py main_dict code (trimmed_blank code h)

/-- Witness of C1 on the snippet made of a space, a line feed and a tab. -/
theorem C1_blank_snippet_witness :
    (∀ c ∈ lit " \n\t", c = 32 ∨ c = 9 ∨ c = 10 ∨ c = 13) ∧
    PythonExecutor.execute mini_python [("x", PyObj.int 5)] (lit " \n\t")
      = ([("x", PyObj.int 5)], Returned.json ⟨Status.success, lit "[No code to execute]"⟩) :=
  ⟨by decide, C1_blank_snippet mini_python [("x", PyObj.int 5)] (lit " \n\t") (by decide)⟩

/-- C2: when the driver has run, the result follows the shared rule on the two texts
read back: `error` exactly when stderr is not empty; the output is stdout, the
separator line and stderr when both are non-empty, the non-empty one when only one is,
and `[No output]` when both are empty. -/
theorem C2_result_rule (py : Python) (main_dict d : Dict) (code : Str)
    (hcode : trimmed_code code ≠ [])
    (hdec : py.decodes (c_str (trimmed_code code)) = true)
    (hrun : python_script py (staged_dict main_dict code) = (d, none)) :
    ∃ r, (PythonExecutor.execute py main_dict code).2 = Returned.json r ∧
      (r.status = Status.error ↔ read_back d "stderr_result" ≠ []) ∧
      (r.status = Status.success ↔ read_back d "stderr_result" = []) ∧
      (read_back d "stdout_result" ≠ [] → read_back d "stderr_result" ≠ [] →
        r.output = read_back d "stdout_result" ++ lit "\n--- STDERR ---\n"
          ++ read_back d "stderr_result") ∧
      (read_back d "stdout_result" ≠ [] → read_back d "stderr_result" = [] →
        r.output = read_back d "stdout_result") ∧
      (read_back d "stdout_result" = [] → read_back d "stderr_result" ≠ [] →
        r.output = read_back d "stderr_result") ∧
      (read_back d "stdout_result" = [] → read_back d "stderr_result" = [] →
        r.output = lit "[No output]") := by
  refine ⟨format_output (read_back d "stdout_result") (read_back d "stderr_result"), ?_,
    format_output_rule _ _⟩
  rw [execute_driver_ran py main_dict d code hcode hdec hrun]

/-- Witness of C2 on the snippet `x = 5` in a fresh session, which prints nothing. -/
theorem C2_result_rule_witness :
    ∃ r, (PythonExecutor.execute mini_python [] (lit "x = 5")).2 = Returned.json r ∧
      r.status = Status.success ∧ r.output = lit "[No output]" := by
  obtain ⟨r, hr, _, hs, _, _, _, ho⟩ := C2_result_rule mini_python []
    (python_script mini_python (staged_dict [] (lit "x = 5"))).1
    (lit "x = 5") (by decide) (by decide) (Prod.ext rfl (by decide))
  exact ⟨r, hr, hs.2 (by decide), ho (by decide) (by decide)⟩

/-- C3 fails as stated on the Windows build: for the batch snippet `echo. 1>&2` the
child exits with code 0 and its stderr, a lone line end, is empty once line ends are
stripped, and the status of the result returned is `error`. -/
theorem C3_counterexample :
    ∃ child r, windows_child (mini_windows true) "batch" (lit "echo. 1>&2") = some child ∧
      (execute_shell_code_windows (mini_windows true) [] "batch" (lit "echo. 1>&2")).2
        = Outcome.returned r ∧
      ¬ (r.status = Status.error ↔
          (child.exit_code ≠ 0 ∨ strip_line_ends (read_chunks child.stderr_reads) ≠ [])) :=
  ⟨⟨[], [lit "\r\n"], 0⟩, ⟨Status.error, lit "\r\n"⟩, by decide, by decide, by decide⟩

/-- C3, amended: on the Windows build, which strips nothing, a result is returned when
`dump()` accepts the output built, and its status is `error` exactly when the exit code is
not 0 or the stderr text as captured (sanitized for `batch`) is not empty.  On the POSIX
build the result that is built and, when `dump()` accepts its output, serialized has
status `error` exactly when the child did not exit normally with code 0 or the stripped
stderr is not empty.  On both, exit code 0 with nothing captured on stderr gives
`success`, whatever the shell name. -/
theorem C3_status :
    (∀ (w : WinWorld) (files : Files) (shell_name : String) (code : Str) (child : WinChild),
      windows_child w shell_name code = some child →
      dump_accepts (windows_result_json w shell_name child).output = true →
      ∃ r, (execute_shell_code_windows w files shell_name code).2 = Outcome.returned r ∧
        (r.status = Status.error ↔
          child.exit_code ≠ 0
            ∨ windows_text w.nls shell_name (read_chunks child.stderr_reads) ≠ []) ∧
        (child.exit_code = 0 → read_chunks child.stderr_reads = [] →
          r.status = Status.success)) ∧
    (∀ (w : PosixWorld) (files : Files) (shell_name : String) (code : Str) (child : PosixChild),
      posix_child w shell_name code = some child →
      dump_accepts (posix_result_json w child).output = true →
      ∃ r, (execute_shell_code_posix w files shell_name code).2.serialized_result = some r ∧
        (r.status = Status.error ↔
          ¬ (w.wait.WIFEXITED child.pclose = true ∧ w.wait.WEXITSTATUS child.pclose = 0)
            ∨ strip_line_ends (child.stderr_file.getD []) ≠ []) ∧
        (w.wait.WIFEXITED child.pclose = true → w.wait.WEXITSTATUS child.pclose = 0 →
          child.stderr_file.getD [] = [] → r.status = Status.success)) := by
  constructor
  · intro w files shell_name code child h hd
    refine ⟨_, windows_returns w files shell_name code child h hd,
      (windows_result_status _ _ _ _ _).1, ?_⟩
    intro h1 h2
    refine (windows_result_status _ _ _ _ _).2.2 ⟨h1, ?_⟩
    rw [h2]
    rfl
  · intro w files shell_name code child h hd
    refine ⟨posix_result_json w child, ?_, (posix_result_status _ _ _ _).1, ?_⟩
    · rw [posix_serializes w files shell_name code child h hd]
      rfl
    · intro h1 h2 h3
      refine (posix_result_status _ _ _ _).2.2 ⟨⟨h1, h2⟩, ?_⟩
      rw [h3]
      rfl

/-- Witness of C3: `exit /b 3` under cmd.exe returns `error`, and for `exit 3` under
bash the result serialized is `error`. -/
theorem C3_status_witness :
    (∃ r, (execute_shell_code_windows (mini_windows true) [] "batch" (lit "exit /b 3")).2
        = Outcome.returned r ∧ r.status = Status.error) ∧
    (∃ r, (execute_shell_code_posix mini_posix [] "bash" (lit "exit 3")).2.serialized_result
        = some r ∧ r.status = Status.error) := by
  constructor
  · obtain ⟨r, hr, hs, _⟩ := C3_status.1 (mini_windows true) [] "batch" (lit "exit /b 3")
      ⟨[], [], 3⟩ (by decide) (by decide)
    exact ⟨r, hr, hs.2 (Or.inl (by decide))⟩
  · obtain ⟨r, hr, hs, _⟩ := C3_status.2 mini_posix [] "bash" (lit "exit 3") ⟨[], 768, some []⟩
      (by decide) (by decide)
    exact ⟨r, hr, hs.2 (Or.inl (by decide))⟩


/-- C4 fails as stated on the Windows build: for the batch snippet `echo hello` the
child exits with code 0 and writes `hello` and a line end; stripped of its line end the
text is `hello`, and the output of the result returned is the text as captured. -/
theorem C4_counterexample :
    ∃ child, windows_child (mini_windows true) "batch" (lit "echo hello") = some child ∧
      child.exit_code = 0 ∧ read_chunks child.stderr_reads = [] ∧
      strip_line_ends (read_chunks child.stdout_reads) = lit "hello" ∧
      (execute_shell_code_windows (mini_windows true) [] "batch" (lit "echo hello")).2
        = Outcome.returned ⟨Status.success, lit "hello\r\n"⟩ ∧
      lit "hello\r\n" ≠ strip_line_ends (read_chunks child.stdout_reads) :=
  ⟨⟨[lit "hello\r\n"], [], 0⟩, by decide, by decide, by decide, by decide, by decide,
    by decide⟩

/-- C4, amended: for a child that exited with code 0 the POSIX build builds its output
from the captured stdout and stderr with their trailing line feeds and carriage returns
stripped: stripped stdout alone (status `success`) when stripped stderr is empty,
`[No output]` when both are empty, stripped stderr alone when stripped stdout is empty,
else stripped stdout, the separator line, stripped stderr; this is the result serialized
when `dump()` accepts the output.  The Windows build strips nothing: it builds the
output in the same way from the two texts as captured (each sanitized when the shell is
`batch`, and unchanged for any other shell name), and returns it when `dump()` accepts
the output. -/
theorem C4_exit_zero_output :
    (∀ (w : PosixWorld) (files : Files) (shell_name : String) (code : Str) (child : PosixChild)
        (so se : Str), posix_child w shell_name code = some child →
      w.wait.WIFEXITED child.pclose = true → w.wait.WEXITSTATUS child.pclose = 0 →
      so = strip_line_ends (read_pipe child.stdout) →
      se = strip_line_ends (child.stderr_file.getD []) →
      dump_accepts (posix_result_json w child).output = true →
      ∃ r, (execute_shell_code_posix w files shell_name code).2.serialized_result = some r ∧
        (se = [] → so ≠ [] → r = ⟨Status.success, so⟩) ∧
        (se = [] → so = [] → r = ⟨Status.success, lit "[No output]"⟩) ∧
        (se ≠ [] → so = [] → r.output = se) ∧
        (se ≠ [] → so ≠ [] → r.output = so ++ lit "\n--- STDERR ---\n" ++ se) ∧
        (∃ t, read_pipe child.stdout = so ++ t ∧ ∀ c ∈ t, c = 10 ∨ c = 13) ∧
        (∀ hne : so ≠ [], so.getLast hne ≠ 10 ∧ so.getLast hne ≠ 13) ∧
        (∃ t, child.stderr_file.getD [] = se ++ t ∧ ∀ c ∈ t, c = 10 ∨ c = 13) ∧
        (∀ hne : se ≠ [], se.getLast hne ≠ 10 ∧ se.getLast hne ≠ 13)) ∧
    (∀ (w : WinWorld) (files : Files) (shell_name : String) (code : Str) (child : WinChild)
        (so se : Str), windows_child w shell_name code = some child →
      child.exit_code = 0 →
      so = windows_text w.nls shell_name (read_chunks child.stdout_reads) →
      se = windows_text w.nls shell_name (read_chunks child.stderr_reads) →
      dump_accepts (windows_result_json w shell_name child).output = true →
      ∃ r, (execute_shell_code_windows w files shell_name code).2 = Outcome.returned r ∧
        (se = [] → so ≠ [] → r = ⟨Status.success, so⟩) ∧
        (se = [] → so = [] → r = ⟨Status.success, lit "[No output]"⟩) ∧
        (se ≠ [] → so = [] → r.output = se) ∧
        (se ≠ [] → so ≠ [] → r.output = so ++ lit "\n--- STDERR ---\n" ++ se) ∧
        (shell_name ≠ "batch" →
          so = read_chunks child.stdout_reads ∧ se = read_chunks child.stderr_reads) ∧
        (shell_name = "batch" →
          so = (if read_chunks child.stdout_reads = [] then []
            else sanitize_output_for_utf8 w.nls (read_chunks child.stdout_reads)) ∧
          se = (if read_chunks child.stderr_reads = [] then []
            else sanitize_output_for_utf8 w.nls (read_chunks child.stderr_reads)))) := by
  constructor
  · intro w files shell_name code child so se h hexit hzero hso hse hd
    subst hso hse
    refine ⟨posix_result_json w child, ?_, ?_, ?_, ?_, ?_,
      (strip_line_ends_spec _).1, (strip_line_ends_spec _).2,
      (strip_line_ends_spec _).1, (strip_line_ends_spec _).2⟩
    · rw [posix_serializes w files shell_name code child h hd]
      rfl
    all_goals
      unfold posix_result_json
      rw [posix_result_exit_zero _ _ _ _ hexit hzero]
      intro h1 h2
      simp [h1, h2, stdout_then_stderr]
  · intro w files shell_name code child so se h hzero hso hse hd
    subst hso hse
    refine ⟨_, windows_returns w files shell_name code child h hd, ?_, ?_, ?_, ?_, ?_, ?_⟩
    · unfold windows_result_json
      rw [hzero, windows_result_exit_zero]
      intro h1 h2
      simp [h1, h2, stdout_then_stderr]
    · unfold windows_result_json
      rw [hzero, windows_result_exit_zero]
      intro h1 h2
      simp [h1, h2, stdout_then_stderr]
    · unfold windows_result_json
      rw [hzero, windows_result_exit_zero]
      intro h1 h2
      simp [h1, h2, stdout_then_stderr]
    · unfold windows_result_json
      rw [hzero, windows_result_exit_zero]
      intro h1 h2
      simp [h1, h2, stdout_then_stderr]
    · intro hb
      unfold windows_text
      constructor <;> split <;> simp_all
    · intro hb
      unfold windows_text
      constructor <;> split <;> simp_all

/-- Witness of C4: for the shell snippet `echo hello`, whose child writes `hello` and a
line end and exits with code 0, the POSIX build builds and serializes `success` /
`hello`, and the Windows build returns `success` with `hello` and the line end. -/
theorem C4_exit_zero_output_witness :
    (execute_shell_code_posix mini_posix [] "bash" (lit "echo hello")).2.serialized_result
      = some ⟨Status.success, lit "hello"⟩ ∧
    (execute_shell_code_windows (mini_windows true) [] "batch" (lit "echo hello")).2
      = Outcome.returned ⟨Status.success, lit "hello\r\n"⟩ := by
  constructor
  · obtain ⟨r, hr, h1, _⟩ := C4_exit_zero_output.1 mini_posix [] "bash" (lit "echo hello")
      ⟨lit "hello\n", 0, some []⟩ (lit "hello") [] (by decide) (by decide) (by decide)
      (by decide) (by decide) (by decide)
    rw [hr, h1 rfl (by decide)]
  · obtain ⟨r, hr, h1, _⟩ := C4_exit_zero_output.2 (mini_windows true) [] "batch"
      (lit "echo hello") ⟨[lit "hello\r\n"], [], 0⟩ (lit "hello\r\n") [] (by decide) (by decide)
      (by decide) (by decide) (by decide)
    rw [hr, h1 rfl (by decide)]


/-- C5, at the failing input: the POSIX build on the snippet `exit 3`.  The result built
is `error` with the output `Process exited with status: 3`, as the claim wants it, and
`dump()` serializes it, but the call does not return it: line 656 has closed the stream
through `pipe.get()`, the `unique_ptr` of line 645 still owns it, and its deleter calls
`pclose` on it a second time when the `try` block is left. -/
theorem C5_exit_3_closes_pipe_twice :
    execute_shell_code_posix mini_posix [] "bash" (lit "exit 3")
      = ([], Outcome.double_pclose
          (some ⟨Status.error, lit "Process exited with status: 3"⟩)) := by
  decide


/-- C6, at the failing input: the POSIX build when `pclose` returns `-1` for a child that
wrote nothing.  The value is neither an exit status nor a signal status, the chain of
lines 689-698 has no branch for it, and the result built and serialized is `error` with
an empty output. -/
theorem C6_unreaped_child_empty_output :
    execute_shell_code_posix unreaped_posix [] "bash" (lit "true")
      = ([], Outcome.double_pclose (some ⟨Status.error, []⟩)) := by
  decide

/-- C7, at the failing input: on the Windows build, when `fs::rename` throws, the
exception leaves the function before the `try` block is entered and the file made by
`GetTempFileNameW` stays in the temp directory. -/
theorem C7_rename_failure_leaves_file :
    execute_shell_code_windows (mini_windows false) [] "batch" (lit "echo hi")
      = (["C:\\Temp\\CMD1A2B.tmp"], Outcome.thrown "filesystem error: rename") := by
  decide

/-- C10: whatever the code-page conversion returns, `sanitize_output_for_utf8` yields a
text that `is_valid_utf8` accepts, for every input byte sequence. -/
theorem C10_sanitize_valid (nls : WinNls) (b : Str) :
    is_valid_utf8 (sanitize_output_for_utf8 nls b) = true := by
  unfold sanitize_output_for_utf8
  by_cases h0 : b = []
  · rw [if_pos h0, h0]
    rfl
  · rw [if_neg h0]
    by_cases h1 : is_valid_utf8 b = true
    · rw [if_pos h1]
      exact h1
    · rw [if_neg h1]
      by_cases h2 : is_valid_utf8 (convert_ansi_to_utf8 nls b) = true
      · simp only [h2, if_true]
      · simp only [h2]
        apply is_valid_utf8_of_ascii
        intro c hc
        obtain ⟨x, _, rfl⟩ := List.mem_map.mp hc
        by_cases hx : x.val < 0x80
        · rw [if_pos hx]
          exact hx
        · rw [if_neg hx]
          decide

/-- C11, amended: `is_valid_utf8` returns `false` for every byte sequence that, after any
number of complete sequences, has in lead position a byte `0x80-0xBF` or `0xF8-0xFF`, or
a lead byte whose sequence is cut off by the end of the input, or a lead byte one of
whose required following bytes is not of the form `10xxxxxx`.  Overlong encodings are
not looked for. -/
theorem C11_rejects_malformed (us : List Str) (c : Byte) (tail : Str)
    (hus : ∀ u ∈ us, is_sequence u = true)
    (hbad : ((0x80 ≤ c.val ∧ c.val ≤ 0xBF) ∨ 0xF8 ≤ c.val) ∨
      tail.length + 1 < bytes_to_read c ∨
      (∃ b ∈ tail.take (bytes_to_read c - 1), b.val >>> 6 ≠ 0x02)) :
    is_valid_utf8 (us.flatten ++ c :: tail) = false := by
  rw [is_valid_utf8_sequences_append us _ hus, is_valid_utf8_cons]
  rcases hbad with hlead | hcut | ⟨b, hb, hnot⟩
  · rw [if_pos ((bytes_to_read_eq_zero c).mpr hlead)]
  · by_cases h0 : bytes_to_read c = 0
    · rw [if_pos h0]
    · rw [if_neg h0, if_pos (by simpa using hcut)]
  · by_cases h0 : bytes_to_read c = 0
    · rw [if_pos h0]
    · rw [if_neg h0]
      by_cases h1 : (c :: tail).length < bytes_to_read c
      · rw [if_pos h1]
      · rw [if_neg h1, if_neg]
        intro hall
        exact hnot (of_decide_eq_true (List.all_eq_true.mp hall b hb))

/-- Witness of C11: after the letter `A`, a lone byte `0x80`, the first two bytes of the
three-byte encoding of the euro sign, and the lead byte `0xC3` followed by `A` are all
refused. -/
theorem C11_rejects_malformed_witness :
    is_valid_utf8 [0x41, 0x80] = false ∧ is_valid_utf8 [0x41, 0xE2, 0x82] = false ∧
      is_valid_utf8 [0x41, 0xC3, 0x41] = false :=
  ⟨C11_rejects_malformed [[0x41]] 0x80 [] (by decide) (Or.inl (by decide)),
    C11_rejects_malformed [[0x41]] 0xE2 [0x82] (by decide) (Or.inr (Or.inl (by decide))),
    C11_rejects_malformed [[0x41]] 0xC3 [0x41] (by decide)
      (Or.inr (Or.inr ⟨0x41, by decide, by decide⟩))⟩

/-- C11 fails as stated: the bytes `C0 AF` are the two-byte overlong form of `/`
(`U+002F`, whose encoding is the single byte `2F`), and `E0 80 AF` the three-byte one;
`is_valid_utf8` accepts both. -/
theorem C11_counterexample :
    utf8_encode 0x2F = [0x2F] ∧ is_valid_utf8 [0xC0, 0xAF] = true ∧
      is_valid_utf8 [0xE0, 0x80, 0xAF] = true := by
  decide

/-- C14: `is_valid_utf8` accepts the standard UTF-8 encoding of every sequence of Unicode
scalar values, the empty one included, and `sanitize_output_for_utf8` hands such a text
back as it is, whatever the code page. -/
theorem C14_accepts_well_formed (nls : WinNls) (text : List Char) :
    is_valid_utf8 (utf8_encode_all text) = true ∧
      sanitize_output_for_utf8 nls (utf8_encode_all text) = utf8_encode_all text := by
  have hvalid : is_valid_utf8 (utf8_encode_all text) = true := by
    have h := is_valid_utf8_sequences_append (text.map (fun ch => utf8_encode ch.toNat)) []
      (by
        intro u hu
        obtain ⟨ch, _, rfl⟩ := List.mem_map.mp hu
        exact is_sequence_utf8_encode ch.toNat (char_toNat_lt ch))
    rw [List.append_nil] at h
    unfold utf8_encode_all
    rw [List.flatMap_def, h]
    rfl
  refine ⟨hvalid, ?_⟩
  unfold sanitize_output_for_utf8
  by_cases h0 : utf8_encode_all text = []
  · rw [if_pos h0]
  · rw [if_neg h0, if_pos hvalid]

end CodeExecutor
